import Mathlib

/-!
Verification of the Elenath celestial-system data model and GUI update loop.

This development shallowly embeds the Rust sources of the Elenath repository:
pure functions become Lean functions, struct mutation becomes explicit state
passing, and `f64` values that are only ever compared (never rounded) are
modelled as `Option ℚ`, where `none` plays the role of an incomparable NaN
and `some q` a finite float.  External astronomy-library calls, file dialogs
and random generators are passed in explicitly as records of functions.
`Vec::sort_by` (a stable sort by a comparator) is embedded as
`List.mergeSort`, the standard library's stable merge sort.
-/

namespace Elenath

/-! ## Floats as compared values

The model of `f64` for fields that are only compared: `none` is NaN (it
compares as incomparable), `some q` is a finite value. -/

/-- FloatVal models an `f64` that the program only ever compares. -/
abbrev FloatVal := Option ℚ

/-- cmpQ is the total comparison of two rationals, mirroring `f64`
comparison on finite values. -/
def cmpQ (x y : ℚ) : Ordering :=
  if x < y then .lt else if x = y then .eq else .gt

/-- pcmp mirrors Rust's `PartialOrd::partial_cmp` on `f64`: `None` when
either operand is NaN. -/
def pcmp (a b : FloatVal) : Option Ordering :=
  match a, b with
  | some x, some y => some (cmpQ x y)
  | _, _ => none

/-- cmpD mirrors the repository's `partial_cmp(..).unwrap_or(Ordering::Equal)`
pattern used in both sort comparators. -/
def cmpD (a b : FloatVal) : Ordering :=
  (pcmp a b).getD .eq

/-! ## Data model

Embedded from `src/model/celestial_system/mod.rs`, `src/model/star.rs` and
the parts of the external `astro_utils` crate that the claims touch.
Fields the claims never inspect are collapsed into opaque `rest : ℕ`
payloads. -/

/-- Vec3 is a rational 3-vector, modelling `astro_coords` directions and
cartesian positions. -/
structure Vec3 where
  x : ℚ
  y : ℚ
  z : ℚ
deriving DecidableEq

/-- OrbitalParameters keeps the one orbital element the claims compare. -/
structure OrbitalParameters where
  semi_major_axis : FloatVal
  rest : ℕ
deriving DecidableEq

/-- PlanetData mirrors `astro_utils::planets::planet_data::PlanetData`. -/
structure PlanetData where
  name : String
  orbital_parameters : OrbitalParameters
  rest : ℕ
deriving DecidableEq

/-- get_semi_major_axis mirrors
`planet.get_orbital_parameters().get_semi_major_axis()`. -/
def PlanetData.get_semi_major_axis (p : PlanetData) : FloatVal :=
  p.orbital_parameters.semi_major_axis

/-- StarAppearance mirrors `astro_utils::stars::appearance::StarAppearance`. -/
structure StarAppearance where
  name : String
  illuminance : FloatVal
  pos : Vec3
  time_since_epoch : FloatVal
deriving DecidableEq

/-- StarData mirrors `astro_utils::stars::data::StarData`; its physical
parameters are opaque to every claim. -/
structure StarData where
  name : String
  rest : ℕ
deriving DecidableEq

/-- Star is the repository's own `model::star::Star` record. -/
structure Star where
  data : Option StarData
  appearance : StarAppearance
  index : Option ℕ
deriving DecidableEq

/-- Ext packages the external astronomy-library functions the data model
calls: appearance derivation, the Gaia duplicate test, the constellation
rebuild (whose source file `constellations.rs` is not part of the sources,
so it stays opaque) and the `has_changed` test. -/
structure Ext where
  to_star_appearance : StarData → FloatVal → StarAppearance
  apparently_the_same : StarAppearance → StarAppearance → Bool
  update_constellations : List Star → List ℕ
  has_changed : StarData → FloatVal → FloatVal → Bool

/-- CelestialSystem mirrors the serialized document in
`model/celestial_system/mod.rs`; a constellation is opaque (`ℕ`). -/
structure CelestialSystem where
  central_body : StarData
  planets : List PlanetData
  distant_stars : List Star
  constellations : List ℕ
  time_since_epoch : FloatVal
deriving DecidableEq

/-! ## Planet operations, from `model/celestial_system/planets.rs` -/

/-- planet_le is the sort order induced by the comparator
`sma(a).partial_cmp(&sma(b)).unwrap_or(Ordering::Equal)`: an element may
precede another unless the comparator says Greater. -/
def planet_le (a b : PlanetData) : Bool :=
  cmpD a.get_semi_major_axis b.get_semi_major_axis != .gt

/-- sort_planets_by_semimajor_axis embeds the `Vec::sort_by` call as the
stable merge sort. -/
def CelestialSystem.sort_planets_by_semimajor_axis
    (s : CelestialSystem) : CelestialSystem :=
  { s with planets := s.planets.mergeSort planet_le }

def CelestialSystem.add_planet_data (s : CelestialSystem)
    (planet : PlanetData) : CelestialSystem :=
  CelestialSystem.sort_planets_by_semimajor_axis
    { s with planets := s.planets ++ [planet] }

/-- overwrite_planet_data writes `self.planets[index] = planet` and
re-sorts.  Rust panics when `index` is out of bounds; `List.set` is the
in-bounds behaviour and the claim supplies a valid index. -/
def CelestialSystem.overwrite_planet_data (s : CelestialSystem)
    (index : ℕ) (planet : PlanetData) : CelestialSystem :=
  CelestialSystem.sort_planets_by_semimajor_axis
    { s with planets := s.planets.set index planet }

def CelestialSystem.get_planets_data (s : CelestialSystem) :
    List PlanetData :=
  s.planets

def CelestialSystem.get_planet_data (s : CelestialSystem) (index : ℕ) :
    Option PlanetData :=
  s.planets.get? index

/-- load_real_planets clears the list and adds the ten solar-system
planets through `add_planet_data`; the hardcoded catalog lives in the
external crate and is passed in. -/
def CelestialSystem.load_real_planets (real_planets : List PlanetData)
    (s : CelestialSystem) : CelestialSystem :=
  real_planets.foldl (fun acc p => acc.add_planet_data p)
    { s with planets := [] }

/-! ## Star operations, from `model/celestial_system/stars.rs` -/

/-- star_le is the order induced by the reversed comparator
`illum(b).partial_cmp(&illum(a)).unwrap_or(Ordering::Equal)` (brightest
first). -/
def star_le (a b : Star) : Bool :=
  cmpD b.appearance.illuminance a.appearance.illuminance != .gt

def Star.from_data (ext : Ext) (data : StarData) (index : Option ℕ)
    (time_since_epoch : FloatVal) : Star :=
  { data := some data
    appearance := ext.to_star_appearance data time_since_epoch
    index := index }

def Star.from_appearance (appearance : StarAppearance)
    (index : Option ℕ) : Star :=
  { data := none, appearance := appearance, index := index }

def Star.set_index (s : Star) (index : ℕ) : Star :=
  { s with index := some index }

def Star.get_appearance (s : Star) : StarAppearance :=
  s.appearance

/-- recalculate_appearance_if_necessary is from `model/star.rs`. -/
def Star.recalculate_appearance_if_necessary (ext : Ext) (s : Star)
    (time_since_epoch : FloatVal) : Star :=
  match s.data with
  | some d =>
    if ext.has_changed d s.appearance.time_since_epoch time_since_epoch
    then { s with appearance := ext.to_star_appearance d time_since_epoch }
    else s
  | none => s

/-- sort_stars_by_brightness sorts by descending illuminance, then walks
the vector assigning each star its position as index. -/
def CelestialSystem.sort_stars_by_brightness
    (s : CelestialSystem) : CelestialSystem :=
  let sorted := s.distant_stars.mergeSort star_le
  let reindexed := sorted.enum.map (fun p => p.2.set_index p.1)
  { s with distant_stars := reindexed }

def CelestialSystem.update_constellations (ext : Ext)
    (s : CelestialSystem) : CelestialSystem :=
  { s with constellations := ext.update_constellations s.distant_stars }

def CelestialSystem.process_stars (ext : Ext)
    (s : CelestialSystem) : CelestialSystem :=
  CelestialSystem.update_constellations ext
    (CelestialSystem.sort_stars_by_brightness s)

/-- stars_with_new_data is the distant-star vector of
`add_stars_from_data` before reprocessing: every new star is pushed with
the pre-push length as its index (the source computes `index` once,
before the loop). -/
def CelestialSystem.stars_with_new_data (ext : Ext) (s : CelestialSystem)
    (star_data : List StarData) : List Star :=
  s.distant_stars ++ star_data.map (fun d =>
    Star.from_data ext d (some s.distant_stars.length) s.time_since_epoch)

def CelestialSystem.add_stars_from_data (ext : Ext) (s : CelestialSystem)
    (star_data : List StarData) : CelestialSystem :=
  CelestialSystem.process_stars ext
    { s with distant_stars := s.stars_with_new_data ext star_data }

/-- remove_known_star_from_list drops the first appearance in the list
that is `apparently_the_same` as the known star, keeping the rest. -/
def remove_known_star_from_list (ext : Ext)
    (star_appearances : List StarAppearance)
    (known_star : StarAppearance) : List StarAppearance :=
  match star_appearances with
  | [] => []
  | a :: rest =>
    if ext.apparently_the_same a known_star then rest
    else a :: remove_known_star_from_list ext rest known_star

def CelestialSystem.get_distant_star_appearances (s : CelestialSystem) :
    List StarAppearance :=
  s.distant_stars.map Star.get_appearance

/-- push_appearances appends appearance-only stars one at a time, each
with the current length as its index (the source recomputes `index`
inside the loop). -/
def push_appearances (stars : List Star) :
    List StarAppearance → List Star
  | [] => stars
  | a :: rest =>
    push_appearances (stars ++ [Star.from_appearance a (some stars.length)])
      rest

/-- surviving_appearances is the input list after dropping, for each
already-known star appearance in order, the first remaining input
appearance apparently the same as it. -/
def CelestialSystem.surviving_appearances (ext : Ext)
    (s : CelestialSystem) (star_appearances : List StarAppearance) :
    List StarAppearance :=
  s.get_distant_star_appearances.foldl
    (fun l known => remove_known_star_from_list ext l known)
    star_appearances

/-- stars_with_new_appearances is the distant-star vector of
`add_star_appearances_without_duplicates` before reprocessing. -/
def CelestialSystem.stars_with_new_appearances (ext : Ext)
    (s : CelestialSystem) (star_appearances : List StarAppearance) :
    List Star :=
  push_appearances s.distant_stars
    (s.surviving_appearances ext star_appearances)

def CelestialSystem.add_star_appearances_without_duplicates (ext : Ext)
    (s : CelestialSystem) (star_appearances : List StarAppearance) :
    CelestialSystem :=
  CelestialSystem.process_stars ext
    { s with distant_stars :=
        s.stars_with_new_appearances ext star_appearances }

/-- stars_overwritten is the distant-star vector of `overwrite_star_data`
before reprocessing: unchanged when the central body is the target. -/
def CelestialSystem.stars_overwritten (ext : Ext) (s : CelestialSystem)
    (index : Option ℕ) (star_data : StarData) : List Star :=
  match index with
  | some i =>
    let st := Star.from_data ext star_data (some i) s.time_since_epoch
    s.distant_stars.set i st
  | none => s.distant_stars

/-- overwrite_star_data overwrites either one distant star (valid index;
Rust panics otherwise and `List.set` is the in-bounds behaviour) or the
central body, then reprocesses. -/
def CelestialSystem.overwrite_star_data (ext : Ext) (s : CelestialSystem)
    (index : Option ℕ) (star_data : StarData) : CelestialSystem :=
  CelestialSystem.process_stars ext
    (match index with
     | some i =>
       { s with distant_stars := s.stars_overwritten ext index star_data }
     | none => { s with central_body := star_data })

/-- get_stars pushes the central body (index None) and then clones the
distant stars in stored order. -/
def CelestialSystem.get_stars (ext : Ext) (s : CelestialSystem) :
    List Star :=
  Star.from_data ext s.central_body none s.time_since_epoch
    :: s.distant_stars

def CelestialSystem.get_star_data (s : CelestialSystem)
    (index : Option ℕ) : Option StarData :=
  match index with
  | some i => (s.distant_stars.get? i).bind Star.data
  | none => some s.central_body

/-- set_time_since_epoch is from `model/celestial_system/mod.rs`. -/
def CelestialSystem.set_time_since_epoch (ext : Ext) (s : CelestialSystem)
    (time_since_epoch : FloatVal) : CelestialSystem :=
  CelestialSystem.update_constellations ext
    { s with
      time_since_epoch := time_since_epoch
      distant_stars := s.distant_stars.map
        (fun st => st.recalculate_appearance_if_necessary ext
          time_since_epoch) }


/-! ## Claim-support definitions for the sort invariants -/

/-- smaQ reads the semi-major axis of a planet with comparable (non-NaN)
key; the default is never reached under the comparability hypotheses. -/
def smaQ (p : PlanetData) : ℚ :=
  p.get_semi_major_axis.getD 0

/-- illumQ reads the illuminance of a star with comparable (non-NaN) key. -/
def illumQ (s : Star) : ℚ :=
  s.appearance.illuminance.getD 0

/-- planets_comparable says every semi-major axis in the list is an actual
number (no NaN), so the sort comparator is a total preorder on the list. -/
def planets_comparable (l : List PlanetData) : Prop :=
  ∀ p ∈ l, p.get_semi_major_axis.isSome = true

/-- stars_comparable says every illuminance in the list is an actual
number (no NaN). -/
def stars_comparable (l : List Star) : Prop :=
  ∀ s ∈ l, s.appearance.illuminance.isSome = true

instance (l : List PlanetData) : Decidable (planets_comparable l) :=
  decidable_of_iff (∀ p ∈ l, p.get_semi_major_axis.isSome = true) Iff.rfl

instance (l : List Star) : Decidable (stars_comparable l) :=
  decidable_of_iff (∀ s ∈ l, s.appearance.illuminance.isSome = true)
    Iff.rfl

/-- planets_sorted is the C1 ordering conclusion: non-decreasing
semi-major axis. -/
def planets_sorted (l : List PlanetData) : Prop :=
  l.Pairwise (fun a b => smaQ a ≤ smaQ b)

/-- planets_stable_wrt pre out states the stability half of C1: `out` is
the projection of the index-tagged stable sort of `pre`, and any two
positions of `pre` whose comparator result is Equal appear in the tagged
sort in their original order. -/
def planets_stable_wrt (pre out : List PlanetData) : Prop :=
  out = (pre.enum.mergeSort (List.enumLE planet_le)).map Prod.snd
  ∧ ∀ i j : ℕ, ∀ hij : i < j, ∀ hj : j < pre.length,
      cmpD (pre.get ⟨i, hij.trans hj⟩).get_semi_major_axis
        (pre.get ⟨j, hj⟩).get_semi_major_axis = .eq →
      [(i, pre.get ⟨i, hij.trans hj⟩), (j, pre.get ⟨j, hj⟩)].Sublist
        (pre.enum.mergeSort (List.enumLE planet_le))

/-- stars_sorted_desc is the C2 conclusion: between every pair of
adjacent positions, the earlier star is at least as bright. -/
def stars_sorted_desc (l : List Star) : Prop :=
  l.Chain' (fun a b => illumQ b ≤ illumQ a)

/-- stars_indexed is the C9 invariant: the star stored at position `k`
carries index `some k`. -/
def stars_indexed (l : List Star) : Prop :=
  ∀ k : ℕ, ∀ hk : k < l.length, (l.get ⟨k, hk⟩).index = some k

/-- claim_never_adds_duplicates is claim C10 as stated: an input
appearance that is apparently the same as an already-present one is never
added (its presence in the result can only come from having been present
before). -/
def claim_never_adds_duplicates (ext : Ext) (s : CelestialSystem)
    (apps : List StarAppearance) : Prop :=
  ∀ a ∈ apps,
    (∃ k ∈ s.get_distant_star_appearances,
      ext.apparently_the_same a k = true) →
    (a ∉ (s.add_star_appearances_without_duplicates ext
        apps).distant_stars.map Star.get_appearance
     ∨ a ∈ s.get_distant_star_appearances)

instance (ext : Ext) (s : CelestialSystem) (apps : List StarAppearance) :
    Decidable (claim_never_adds_duplicates ext s apps) :=
  decidable_of_iff
    (∀ a ∈ apps,
      (∃ k ∈ s.get_distant_star_appearances,
        ext.apparently_the_same a k = true) →
      (a ∉ (s.add_star_appearances_without_duplicates ext
          apps).distant_stars.map Star.get_appearance
       ∨ a ∈ s.get_distant_star_appearances))
    Iff.rfl

/-! ## Whole-document JSON persistence

The `write_to_file` / `read_from_file` pair serializes the whole
`CelestialSystem` with `serde_json`.  JSON documents are modelled as
values (text and whitespace abstracted away); the derived serde
implementations become field-by-field encoders and decoders.  One piece
of real `serde_json` behaviour matters for the round trip: a non-finite
`f64` (our `none`) is serialized as `null`, and deserializing `null`
back into an `f64` fails. -/

/-- Json is the document model for `serde_json` values. -/
inductive Json where
  | null
  | num (q : ℚ)
  | str (s : String)
  | arr (items : List Json)
  | obj (fields : List (String × Json))

/-- encFloat writes a finite float as a number and NaN as null, as
`serde_json` does. -/
def encFloat : FloatVal → Json
  | some q => .num q
  | none => .null

/-- decFloat only accepts a number: deserializing `null` into `f64`
fails. -/
def decFloat : Json → Option FloatVal
  | .num q => some (some q)
  | _ => none

def encNat (n : ℕ) : Json := .num n

def decNat : Json → Option ℕ
  | .num q => if q.den = 1 ∧ 0 ≤ q.num then some q.num.toNat else none
  | _ => none

def decStr : Json → Option String
  | .str s => some s
  | _ => none

/-- encOpt mirrors serde's `Option` encoding: null or the value. -/
def encOpt {α : Type} (f : α → Json) : Option α → Json
  | some a => f a
  | none => .null

def decOpt {α : Type} (f : Json → Option α) : Json → Option (Option α)
  | .null => some none
  | j => (f j).map some

/-- getField looks a field up in a serialized object. -/
def getField (fields : List (String × Json)) (key : String) :
    Option Json :=
  (fields.find? (fun p => p.1 == key)).map Prod.snd

def encOrbitalParameters (o : OrbitalParameters) : Json :=
  .obj [("semi_major_axis", encFloat o.semi_major_axis),
        ("rest", encNat o.rest)]

def decOrbitalParameters : Json → Option OrbitalParameters
  | .obj f => do
    let sma ← (getField f "semi_major_axis").bind decFloat
    let rest ← (getField f "rest").bind decNat
    pure ⟨sma, rest⟩
  | _ => none

def encPlanetData (p : PlanetData) : Json :=
  .obj [("name", .str p.name),
        ("orbital_parameters", encOrbitalParameters p.orbital_parameters),
        ("rest", encNat p.rest)]

def decPlanetData : Json → Option PlanetData
  | .obj f => do
    let name ← (getField f "name").bind decStr
    let orb ← (getField f "orbital_parameters").bind
      decOrbitalParameters
    let rest ← (getField f "rest").bind decNat
    pure ⟨name, orb, rest⟩
  | _ => none

def encVec3 (v : Vec3) : Json :=
  .obj [("x", .num v.x), ("y", .num v.y), ("z", .num v.z)]

def decQ : Json → Option ℚ
  | .num q => some q
  | _ => none

def decVec3 : Json → Option Vec3
  | .obj f => do
    let x ← (getField f "x").bind decQ
    let y ← (getField f "y").bind decQ
    let z ← (getField f "z").bind decQ
    pure ⟨x, y, z⟩
  | _ => none

def encStarAppearance (a : StarAppearance) : Json :=
  .obj [("name", .str a.name),
        ("illuminance", encFloat a.illuminance),
        ("pos", encVec3 a.pos),
        ("time_since_epoch", encFloat a.time_since_epoch)]

def decStarAppearance : Json → Option StarAppearance
  | .obj f => do
    let name ← (getField f "name").bind decStr
    let ill ← (getField f "illuminance").bind decFloat
    let pos ← (getField f "pos").bind decVec3
    let t ← (getField f "time_since_epoch").bind decFloat
    pure ⟨name, ill, pos, t⟩
  | _ => none

def encStarData (d : StarData) : Json :=
  .obj [("name", .str d.name), ("rest", encNat d.rest)]

def decStarData : Json → Option StarData
  | .obj f => do
    let name ← (getField f "name").bind decStr
    let rest ← (getField f "rest").bind decNat
    pure ⟨name, rest⟩
  | _ => none

def encStar (s : Star) : Json :=
  .obj [("data", encOpt encStarData s.data),
        ("appearance", encStarAppearance s.appearance),
        ("index", encOpt encNat s.index)]

def decStar : Json → Option Star
  | .obj f => do
    let data ← (getField f "data").bind (decOpt decStarData)
    let app ← (getField f "appearance").bind decStarAppearance
    let idx ← (getField f "index").bind (decOpt decNat)
    pure ⟨data, app, idx⟩
  | _ => none

def encCelestialSystem (s : CelestialSystem) : Json :=
  .obj [("central_body", encStarData s.central_body),
        ("planets", .arr (s.planets.map encPlanetData)),
        ("distant_stars", .arr (s.distant_stars.map encStar)),
        ("constellations", .arr (s.constellations.map encNat)),
        ("time_since_epoch", encFloat s.time_since_epoch)]

def decArr {α : Type} (f : Json → Option α) : Json → Option (List α)
  | .arr items => items.mapM f
  | _ => none

def decCelestialSystem : Json → Option CelestialSystem
  | .obj f => do
    let central ← (getField f "central_body").bind decStarData
    let planets ← (getField f "planets").bind (decArr decPlanetData)
    let stars ← (getField f "distant_stars").bind (decArr decStar)
    let constellations ← (getField f "constellations").bind
      (decArr decNat)
    let t ← (getField f "time_since_epoch").bind decFloat
    pure ⟨central, planets, stars, constellations, t⟩
  | _ => none

/-- FileSys is the file system seen as a map from paths to JSON
documents. -/
def FileSys := String → Option Json

/-- write_to_file serializes the whole system to the chosen path
(`serde_json::to_writer` over a fresh file). -/
def CelestialSystem.write_to_file (fs : FileSys) (s : CelestialSystem)
    (path : String) : FileSys :=
  fun p => if p = path then some (encCelestialSystem s) else fs p

/-- read_from_file opens the path and deserializes the whole system;
missing file and parse failure collapse to `none`. -/
def CelestialSystem.read_from_file (fs : FileSys) (path : String) :
    Option CelestialSystem :=
  (fs path).bind decCelestialSystem

/-- StarAppearance.floats_finite: both float fields are numbers. -/
def StarAppearance.floats_finite (a : StarAppearance) : Prop :=
  a.illuminance.isSome = true ∧ a.time_since_epoch.isSome = true

/-- CelestialSystem.floats_finite: every float stored in the document is
an actual number, so no field serializes to `null`. -/
def CelestialSystem.floats_finite (s : CelestialSystem) : Prop :=
  (∀ p ∈ s.planets, p.get_semi_major_axis.isSome = true)
  ∧ (∀ st ∈ s.distant_stars, st.appearance.floats_finite)
  ∧ s.time_since_epoch.isSome = true

instance (a : StarAppearance) : Decidable a.floats_finite :=
  instDecidableAnd

instance (s : CelestialSystem) : Decidable s.floats_finite :=
  instDecidableAnd

/-! ## GUI layer

Embedded from `src/gui/*`.  The files `error.rs`, `file_dialog.rs` and
`gui/dialog/mod.rs` are declared by the sources but are not part of them,
so the error enum, the file dialogs and the `Dialog` trait surface are
modelled from the spec; everything else follows `message.rs`,
`gui_widget.rs`, `gui/mod.rs` and the two view-state files. -/

/-- ElenathError.  Modelled from the spec: `error.rs` is missing from the
sources; the spec describes a single flat error enum covering a missing
loaded system, body-not-found, I/O/serialization failure and network
fetch failure, with conversions from the astronomy library's errors
(`astro` here).  Opaque payloads keep distinct causes distinct. -/
inductive ElenathError where
  | noCelestialSystem
  | bodyNotFound
  | fileAccess (code : ℕ)
  | fetch (code : ℕ)
  | astro (code : ℕ)
deriving DecidableEq

/-- Dialog.  Modelled from the spec: the `Dialog` trait object
(`dialog/mod.rs` missing) is collapsed to its observable surface in
`message.rs`: a possible construction error reported through
`get_error`, the error payload shown by the modal error dialog, and an
opaque payload for everything else. -/
structure Dialog where
  get_error : Option ElenathError
  shown_error : Option ElenathError
  payload : ℕ
deriving DecidableEq

/-- ErrorDialog.new is the modal dialog carrying an error (modelled from
the spec; `dialog/error.rs` is missing from the sources). -/
def ErrorDialog.new (e : ElenathError) : Dialog :=
  { get_error := none, shown_error := some e, payload := 0 }

inductive GuiViewMode where
  | surface
  | top
  | table
deriving DecidableEq

inductive TableDataType where
  | planet
  | star
  | supernova
deriving DecidableEq

inductive DialogType where
  | newSystem
  | newPlanet
  | editPlanet (index : ℕ)
  | newStar
  | editStar (index : Option ℕ)
  | randomizePlanets
  | loadRealPlanets
  | randomizeStars
  | loadGaiaData
deriving DecidableEq

/-- DialogUpdate payloads are string edits in text fields; opaque here. -/
abbrev DialogUpdate := ℕ

inductive StarDataType where
  | hardcoded
  | gaiaMeasurementSmall
  | gaiaMeasurementLarge
  | gaiaSimulation
deriving DecidableEq

/-- CanvasCache models an `iced` canvas cache: `none` is cleared, `some`
holds a cached geometry. -/
abbrev CanvasCache := Option ℕ

/-- two_pi_f64 is the value of the `f64` constant `2.0 * PI` used as the
upper clamp of the viewport opening angle. -/
def two_pi_f64 : ℚ := 6.283185307179586

/-- SurfaceViewState from `gui/surface_view/widget.rs`; angles are kept
in degrees, the opening angle in steradians. -/
structure SurfaceViewState where
  background_cache : CanvasCache
  bodies_cache : CanvasCache
  surface_longitude : ℚ
  surface_latitude : ℚ
  view_longitude : ℚ
  view_latitude : ℚ
  viewport_opening_angle : ℚ
deriving DecidableEq

inductive SurfaceViewUpdate where
  | surfaceLongitude (a : ℚ)
  | surfaceLatitude (a : ℚ)
  | viewLongitude (a : ℚ)
  | viewLatitude (a : ℚ)
  | viewportOpeningAngle (a : ℚ)
deriving DecidableEq

def SurfaceViewState.new : SurfaceViewState :=
  { background_cache := none, bodies_cache := none
    surface_longitude := 0, surface_latitude := 0
    view_longitude := 0, view_latitude := 90
    viewport_opening_angle := 1 }

/-- SurfaceViewState.update takes the external `normalized_angle`
function explicitly. -/
def SurfaceViewState.update (normalize : ℚ → ℚ)
    (st : SurfaceViewState) (m : SurfaceViewUpdate) : SurfaceViewState :=
  match m with
  | .surfaceLongitude a => { st with surface_longitude := normalize a }
  | .surfaceLatitude a =>
    let a := if a < -90 then (-90 : ℚ) else if a > 90 then 90 else a
    { st with surface_latitude := a }
  | .viewLongitude a => { st with view_longitude := normalize a }
  | .viewLatitude a =>
    let a := if a < 10 then (10 : ℚ) else if a > 90 then 90 else a
    { st with view_latitude := a }
  | .viewportOpeningAngle a =>
    let a := if a < 1/10 then (1/10 : ℚ)
      else if a > two_pi_f64 then two_pi_f64 else a
    { st with viewport_opening_angle := a }

def SurfaceViewState.redraw (st : SurfaceViewState) : SurfaceViewState :=
  { st with bodies_cache := none }

/-- TopViewState from `gui/top_view/widget.rs`; the view ecliptic is its
spherical longitude and latitude in degrees. -/
structure TopViewState where
  background_cache : CanvasCache
  bodies_cache : CanvasCache
  scale_cache : CanvasCache
  length_per_pixel : ℚ
  view_longitude : ℚ
  view_latitude : ℚ
deriving DecidableEq

inductive TopViewUpdate where
  | lengthScale (l : ℚ)
  | viewLongitude (a : ℚ)
  | viewLatitude (a : ℚ)
deriving DecidableEq

def TopViewState.new : TopViewState :=
  { background_cache := none, bodies_cache := none, scale_cache := none
    length_per_pixel := 1/100, view_longitude := 0, view_latitude := 90 }

def TopViewState.update (normalize : ℚ → ℚ) (st : TopViewState)
    (m : TopViewUpdate) : TopViewState :=
  match m with
  | .lengthScale l => { st with length_per_pixel := l }
  | .viewLongitude a => { st with view_longitude := normalize a }
  | .viewLatitude a =>
    let a := if a < -90 then (-90 : ℚ) else if a > 90 then 90 else a
    { st with view_latitude := a }

def TopViewState.redraw (st : TopViewState) : TopViewState :=
  { st with bodies_cache := none, scale_cache := none }

structure TableViewState where
  displayed_body_type : TableDataType
deriving DecidableEq

/-- GuiMessage mirrors the message enum of `gui/message.rs`. -/
inductive GuiMessage where
  | updateSurfaceView (u : SurfaceViewUpdate)
  | updateTopView (u : TopViewUpdate)
  | newSystem
  | saveToFile
  | saveToNewFile
  | openFile
  | modeSelected (m : GuiViewMode)
  | newPlanet (p : PlanetData)
  | planetEdited (index : ℕ) (p : PlanetData)
  | newStar (d : StarData)
  | starEdited (index : Option ℕ) (d : StarData)
  | updateTime (t : FloatVal)
  | updateTimeStep (t : FloatVal)
  | planetSelected (name : String)
  | setDisplayNames (b : Bool)
  | setDisplayConstellations (b : Bool)
  | tableDataTypeSelected (t : TableDataType)
  | randomizePlanets
  | loadRealPlanets
  | randomizeStars (keep_central_body : Bool) (max_distance : FloatVal)
  | loadStars (t : StarDataType)
  | openDialog (t : DialogType)
  | dialogUpdate (u : DialogUpdate)
  | dialogSubmit
  | dialogClosed
  | errorEncountered (e : ElenathError)
deriving DecidableEq

/-- Gui mirrors the application state struct of `gui/mod.rs`. -/
structure Gui where
  opened_file : Option String
  mode : GuiViewMode
  surface_view_state : SurfaceViewState
  top_view_state : TopViewState
  table_view_state : TableViewState
  time_step : FloatVal
  celestial_system : Option CelestialSystem
  selected_planet_name : String
  display_names : Bool
  display_constellations : Bool
  dialog : Option Dialog
deriving DecidableEq

/-- Gui.redraw from `gui/mod.rs`: clear the caches of the active canvas
view; the table view has none. -/
def Gui.redraw (g : Gui) : Gui :=
  match g.mode with
  | .surface => { g with surface_view_state := g.surface_view_state.redraw }
  | .top => { g with top_view_state := g.top_view_state.redraw }
  | .table => g

/-- Env carries every external effect `handle_message` can trigger: the
astronomy library, the file dialogs (`file_dialog.rs` missing from the
sources, modelled from the spec as returning an optional chosen path),
file I/O outcomes, the remote catalog, and the construction and behaviour
of the dialogs whose trait definition is missing.  Fallible external
calls return an opaque error code which the embedded code wraps in the
matching `ElenathError` variant. -/
structure Env where
  ext : Ext
  normalized_angle : ℚ → ℚ
  file_dialog_new : Option String
  file_dialog_open : Option String
  write_file : CelestialSystem → String → Option ℕ
  read_file : String → Except ℕ CelestialSystem
  generate_random_star : Except ℕ StarData
  generate_random_stars : FloatVal → Except ℕ (List StarData)
  fetch_brightest_stars : ℚ → Except ℕ (List StarAppearance)
  fetch_simulated_stars : Except ℕ (List StarData)
  get_many_stars : List StarData
  sun_data : StarData
  real_planets : List PlanetData
  dialog_update : Dialog → DialogUpdate → Dialog
  dialog_submit : Dialog → GuiMessage
  new_system_dialog : Dialog
  planet_dialog_new : StarData → Except ℕ Dialog
  planet_dialog_edit :
    PlanetData → ℕ → Option PlanetData → StarData → Except ℕ Dialog
  star_dialog_new : FloatVal → Dialog
  star_dialog_edit : StarData → Option ℕ → FloatVal → Dialog
  randomize_planets_dialog : Dialog
  load_real_planets_dialog : Dialog
  randomize_stars_dialog : Dialog
  load_real_stars_dialog : Dialog

/-- CelestialSystem.empty from `celestial_system/mod.rs`: blank central
body, nothing else. -/
def CelestialSystem.empty : CelestialSystem :=
  { central_body := { name := "", rest := 0 }
    planets := []
    distant_stars := []
    constellations := []
    time_since_epoch := some 0 }

/-- randomize_stars: a failed central-body generation leaves the system
untouched; a failed star generation keeps an already-regenerated central
body, mirroring the in-place mutation order of the source. -/
def CelestialSystem.randomize_stars (env : Env) (s : CelestialSystem)
    (keep_central_body : Bool) (max_distance : FloatVal) :
    CelestialSystem × Option ElenathError :=
  let step1 : CelestialSystem × Option ElenathError :=
    if keep_central_body then (s, none)
    else
      match env.generate_random_star with
      | .ok star => ({ s with central_body := star }, none)
      | .error c => (s, some (.astro c))
  match step1 with
  | (s1, some e) => (s1, some e)
  | (s1, none) =>
    match env.generate_random_stars max_distance with
    | .error c => (s1, some (.astro c))
    | .ok stars => (s1.add_stars_from_data env.ext stars, none)

/-- load_gaia_data first adds the hardcoded catalog, then merges the
fetched Gaia stars without duplicates; a fetch failure keeps the
hardcoded stars. -/
def CelestialSystem.load_gaia_data (env : Env) (s : CelestialSystem)
    (magnitude_threshold : ℚ) : CelestialSystem × Option ElenathError :=
  let s1 := s.add_stars_from_data env.ext env.get_many_stars
  match env.fetch_brightest_stars magnitude_threshold with
  | .error c => (s1, some (.fetch c))
  | .ok gaia => (s1.add_star_appearances_without_duplicates env.ext gaia,
      none)

def CelestialSystem.load_real_stars (env : Env) (s : CelestialSystem)
    (data_type : StarDataType) : CelestialSystem × Option ElenathError :=
  let s0 := { s with central_body := env.sun_data, distant_stars := [] }
  match data_type with
  | .hardcoded => (s0.add_stars_from_data env.ext env.get_many_stars, none)
  | .gaiaMeasurementSmall => s0.load_gaia_data env 6
  | .gaiaMeasurementLarge => s0.load_gaia_data env 11
  | .gaiaSimulation =>
    match env.fetch_simulated_stars with
    | .error c => (s0, some (.astro c))
    | .ok stars => (s0.add_stars_from_data env.ext stars, none)

/-- HMRes is the observable outcome of `handle_message`: success, an
`ElenathError`, or a Rust panic (`todo!()`, out-of-bounds indexing,
unbounded recursion). -/
inductive HMRes where
  | ok
  | err (e : ElenathError)
  | panic
deriving DecidableEq

/-- Gui.open_dialog from `gui/message.rs`. -/
def Gui.open_dialog (env : Env) (g : Gui) (dt : DialogType) :
    Gui × Option ElenathError :=
  match dt with
  | .newSystem => ({ g with dialog := some env.new_system_dialog }, none)
  | .newPlanet =>
    match g.celestial_system with
    | none => (g, some .noCelestialSystem)
    | some s =>
      match env.planet_dialog_new s.central_body with
      | .error c => (g, some (.astro c))
      | .ok d => ({ g with dialog := some d }, none)
  | .editPlanet index =>
    match g.celestial_system with
    | none => (g, some .noCelestialSystem)
    | some s =>
      match s.get_planet_data index with
      | none => (g, some .bodyNotFound)
      | some planet =>
        let previous := if index = 0 then none
          else s.get_planet_data (index - 1)
        match env.planet_dialog_edit planet index previous
            s.central_body with
        | .error c => (g, some (.astro c))
        | .ok d => ({ g with dialog := some d }, none)
  | .newStar =>
    match g.celestial_system with
    | none => (g, some .noCelestialSystem)
    | some s =>
      let d := env.star_dialog_new s.time_since_epoch
      ({ g with dialog := some d }, none)
  | .editStar index =>
    match g.celestial_system with
    | none => (g, some .noCelestialSystem)
    | some s =>
      match s.get_star_data index with
      | none => (g, some .bodyNotFound)
      | some star =>
        let d := env.star_dialog_edit star index s.time_since_epoch
        ({ g with dialog := some d }, none)
  | .randomizePlanets =>
    ({ g with dialog := some env.randomize_planets_dialog }, none)
  | .loadRealPlanets =>
    ({ g with dialog := some env.load_real_planets_dialog }, none)
  | .randomizeStars =>
    ({ g with dialog := some env.randomize_stars_dialog }, none)
  | .loadGaiaData =>
    ({ g with dialog := some env.load_real_stars_dialog }, none)

/-- Gui.save_current is the shared tail of SaveToFile and SaveToNewFile:
write the current system to the chosen path if there is one. -/
def Gui.save_current (env : Env) (g1 : Gui) : Gui × HMRes :=
  match g1.opened_file with
  | some path =>
    match g1.celestial_system with
    | none => (g1, .err .noCelestialSystem)
    | some s =>
      match env.write_file s path with
      | some c => (g1, .err (.fileAccess c))
      | none => (g1.redraw, .ok)
  | none => (g1.redraw, .ok)

/-- Gui.open_chosen is the tail of OpenFile: read the chosen path into a
fresh celestial system. -/
def Gui.open_chosen (env : Env) (g1 : Gui) : Gui × HMRes :=
  match g1.opened_file with
  | some path =>
    match env.read_file path with
    | .error c => (g1, .err (.fileAccess c))
    | .ok s => (({ g1 with celestial_system := some s }).redraw, .ok)
  | none => (g1.redraw, .ok)

/-- Gui.hm_step is one dispatch of `handle_message`, with the recursive
`DialogSubmit` re-dispatch abstracted as `inner` (the source discards the
inner `Result` but keeps its state changes).  Every fall-through of the
source's match ends in `self.redraw(); Ok(())`; early `return`s and `?`
propagation skip the redraw. -/
def Gui.hm_step (env : Env) (inner : Gui → GuiMessage → Gui × HMRes)
    (g : Gui) (m : GuiMessage) : Gui × HMRes :=
  match g.dialog.bind Dialog.get_error with
    | some e => (g, .err e)
    | none =>
      match m with
      | .updateSurfaceView u =>
        (({ g with surface_view_state :=
            g.surface_view_state.update env.normalized_angle u }).redraw,
          .ok)
      | .updateTopView u =>
        (({ g with top_view_state :=
            g.top_view_state.update env.normalized_angle u }).redraw, .ok)
      | .newPlanet p =>
        match g.celestial_system with
        | none => (g, .err .noCelestialSystem)
        | some s =>
          let s1 := s.add_planet_data p
          (({ g with celestial_system := some s1, dialog := none }).redraw,
            .ok)
      | .planetEdited index p =>
        match g.celestial_system with
        | none => (g, .err .noCelestialSystem)
        | some s =>
          if index < s.planets.length then
            let s1 := s.overwrite_planet_data index p
            (({ g with celestial_system := some s1, dialog := none }).redraw,
              .ok)
          else (g, .panic)
      | .newStar d =>
        match g.celestial_system with
        | none => (g, .err .noCelestialSystem)
        | some s =>
          let s1 := s.add_stars_from_data env.ext [d]
          (({ g with celestial_system := some s1, dialog := none }).redraw,
            .ok)
      | .starEdited index d =>
        match g.celestial_system with
        | none => (g, .err .noCelestialSystem)
        | some s =>
          match index with
          | some i =>
            if i < s.distant_stars.length then
              let s1 := s.overwrite_star_data env.ext (some i) d
              let g1 :=
                { g with celestial_system := some s1, dialog := none }
              (g1.redraw, .ok)
            else (g, .panic)
          | none =>
            let s1 := s.overwrite_star_data env.ext none d
            (({ g with celestial_system := some s1, dialog := none }).redraw,
              .ok)
      | .newSystem =>
        let s1 := CelestialSystem.empty
        (({ g with celestial_system := some s1, dialog := none }).redraw,
          .ok)
      | .saveToFile =>
        Gui.save_current env
          (if g.opened_file.isNone
            then { g with opened_file := env.file_dialog_new } else g)
      | .saveToNewFile =>
        Gui.save_current env { g with opened_file := env.file_dialog_new }
      | .openFile =>
        Gui.open_chosen env { g with opened_file := env.file_dialog_open }
      | .modeSelected mode => (({ g with mode := mode }).redraw, .ok)
      | .updateTime t =>
        match g.celestial_system with
        | none => (g, .err .noCelestialSystem)
        | some s =>
          let s1 := s.set_time_since_epoch env.ext t
          (({ g with celestial_system := some s1 }).redraw, .ok)
      | .updateTimeStep t => (({ g with time_step := t }).redraw, .ok)
      | .planetSelected name =>
        (({ g with selected_planet_name := name }).redraw, .ok)
      | .setDisplayNames b =>
        (({ g with display_names := b }).redraw, .ok)
      | .setDisplayConstellations b =>
        (({ g with display_constellations := b }).redraw, .ok)
      | .tableDataTypeSelected t =>
        (({ g with table_view_state := ⟨t⟩ }).redraw, .ok)
      | .randomizePlanets =>
        match g.celestial_system with
        | none => (g, .err .noCelestialSystem)
        | some _ => (g, .panic)
      | .loadRealPlanets =>
        match g.celestial_system with
        | none => (g, .err .noCelestialSystem)
        | some s =>
          let s1 := s.load_real_planets env.real_planets
          (({ g with celestial_system := some s1, dialog := none }).redraw,
            .ok)
      | .randomizeStars keep maxd =>
        match g.celestial_system with
        | none => (g, .err .noCelestialSystem)
        | some s =>
          match s.randomize_stars env keep maxd with
          | (s1, some e) =>
            ({ g with celestial_system := some s1 }, .err e)
          | (s1, none) =>
            (({ g with celestial_system := some s1, dialog := none }).redraw,
              .ok)
      | .loadStars t =>
        match g.celestial_system with
        | none => (g, .err .noCelestialSystem)
        | some s =>
          match s.load_real_stars env t with
          | (s1, some e) =>
            ({ g with celestial_system := some s1 }, .err e)
          | (s1, none) =>
            (({ g with celestial_system := some s1, dialog := none }).redraw,
              .ok)
      | .openDialog dt =>
        match Gui.open_dialog env g dt with
        | (g1, some e) => (g1, .err e)
        | (g1, none) => (g1.redraw, .ok)
      | .dialogUpdate u =>
        match g.dialog with
        | some d =>
          let d1 := env.dialog_update d u
          (({ g with dialog := some d1 }).redraw, .ok)
        | none => (g.redraw, .ok)
      | .dialogSubmit =>
        match g.dialog with
        | some d =>
          match inner g (env.dialog_submit d) with
          | (g1, .panic) => (g1, .panic)
          | (g1, _) => (g1.redraw, .ok)
        | none => (g.redraw, .ok)
      | .dialogClosed => (({ g with dialog := none }).redraw, .ok)
      | .errorEncountered e => (g, .err e)

/-- Gui.hm ties the recursion of `hm_step` with explicit fuel; exhausted
fuel turns the re-dispatch into the panic the source's unbounded
recursion would be. -/
def Gui.hm (env : Env) : ℕ → Gui → GuiMessage → Gui × HMRes
  | 0 => Gui.hm_step env (fun g' _ => (g', .panic))
  | fuel + 1 => Gui.hm_step env (Gui.hm env fuel)

/-- Gui.handle_message: one unit of fuel because a real dialog's
`on_submit` message is never itself `DialogSubmit`. -/
def Gui.handle_message (env : Env) (g : Gui) (m : GuiMessage) :
    Gui × HMRes :=
  Gui.hm env 1 g m

/-- Gui.update from `gui_widget.rs`: an error from `handle_message`
becomes a modal `ErrorDialog`.  A panic aborts the real program; the
model just passes the state through, and no claim exercises that case. -/
def Gui.update (env : Env) (g : Gui) (m : GuiMessage) : Gui :=
  match Gui.handle_message env g m with
  | (g1, .err e) => { g1 with dialog := some (ErrorDialog.new e) }
  | (g1, _) => g1

/-- system_requiring lists the messages of claim C4, each of which starts
by demanding a loaded celestial system. -/
def system_requiring (m : GuiMessage) : Bool :=
  match m with
  | .newPlanet _ => true
  | .planetEdited _ _ => true
  | .newStar _ => true
  | .starEdited _ _ => true
  | .updateTime _ => true
  | .randomizePlanets => true
  | .loadRealPlanets => true
  | .randomizeStars _ _ => true
  | .loadStars _ => true
  | _ => false

/-- caches_cleared_strong renders C8 as stated: in Surface mode all the
surface-view caches (bodies and background) are cleared, in Top mode the
bodies and scale caches. -/
def caches_cleared_strong (g : Gui) : Bool :=
  match g.mode with
  | .surface => g.surface_view_state.bodies_cache.isNone
      && g.surface_view_state.background_cache.isNone
  | .top => g.top_view_state.bodies_cache.isNone
      && g.top_view_state.scale_cache.isNone
  | .table => true

/-- caches_cleared is the amended C8 conclusion: redraw clears the
surface bodies cache in Surface mode, the top bodies and scale caches in
Top mode; the background caches of both views stay untouched. -/
def caches_cleared (g : Gui) : Bool :=
  match g.mode with
  | .surface => g.surface_view_state.bodies_cache.isNone
  | .top => g.top_view_state.bodies_cache.isNone
      && g.top_view_state.scale_cache.isNone
  | .table => true

/-! ## Surface-view projection, from `gui/surface_view/canvas_appearance.rs`
and `viewport.rs` -/

def dot (a b : Vec3) : ℚ :=
  a.x * b.x + a.y * b.y + a.z * b.z

def cross (a b : Vec3) : Vec3 :=
  ⟨a.y * b.z - a.z * b.y, a.z * b.x - a.x * b.z, a.x * b.y - a.y * b.x⟩

/-- Viewport is the camera state handed to the projection. -/
structure Viewport where
  center_direction : Vec3
  top_direction : Vec3
  px_per_distance : ℚ
deriving DecidableEq

/-- direction_relative_to_normal models the external
`astro_coords::transformations::relative_direction` rotation: it expresses
`d` in the right-handed frame whose z-axis is the normal
(`center_direction`) and whose x-axis `xhat` is the unit projection of the
rotation reference (`top_direction`) onto the plane orthogonal to the
normal.  Computing `xhat` needs a square root, so the frame axis is
passed in explicitly and the claim's hypotheses characterize it. -/
def direction_relative_to_normal (d normal xhat : Vec3) : Vec3 :=
  ⟨dot d xhat, dot d (cross normal xhat), dot d normal⟩

/-- offset embeds the `offset` function of `canvas_appearance.rs`: screen
x is the relative y component scaled, screen y the negated relative x
component scaled (the iced y axis points down), and a star behind the
viewport plane (z component not positive) has no offset. -/
def offset (appearance : StarAppearance) (viewport : Viewport)
    (xhat : Vec3) : Option (ℚ × ℚ) :=
  let direction := direction_relative_to_normal appearance.pos
    viewport.center_direction xhat
  if 0 < direction.z then
    some (direction.y * viewport.px_per_distance,
      -direction.x * viewport.px_per_distance)
  else none

/-! ## Brightness-to-radius/alpha mapping, from `canvas_appearance.rs`

The mapping runs on `f32` with `powf`; it is modelled over the reals
(real exponentiation is not executable, which is why these definitions
are noncomputable). -/

/-- illuminance_at_min_radius is the 8e-8 lux threshold. -/
noncomputable def illuminance_at_min_radius : ℝ := 8 / 100000000

/-- min_radius is `MIN_RADIUS = 1.5`. -/
noncomputable def min_radius : ℝ := 3 / 2

/-- max_radius is `MAX_RADIUS = 1e5`. -/
noncomputable def max_radius : ℝ := 100000

/-- radius_exponent is `RADIUS_EXPONENT = 0.23`. -/
noncomputable def radius_exponent : ℝ := 23 / 100

/-- alpha_exponent is `ALPHA_EXPONENT = 0.75`. -/
noncomputable def alpha_exponent : ℝ := 3 / 4

noncomputable def brightness_ratio (illuminance : ℝ) : ℝ :=
  illuminance / illuminance_at_min_radius

/-- color_and_radius returns the alpha channel and the radius computed by
`CanvasAppearance::color_and_radius`; the rgb channels (maximized color
plus white) carry no claim content and are omitted. -/
noncomputable def color_and_radius (illuminance : ℝ) : ℝ × ℝ :=
  let ratio := brightness_ratio illuminance
  if ratio < 1 then
    (Real.rpow ratio alpha_exponent, min_radius)
  else
    let radius := Real.rpow ratio radius_exponent * min_radius
    (1, if radius > max_radius then max_radius else radius)

/-- keeps_equal_order renders the stability clause of claim C1 exactly as
stated, with no comparability restriction: any two stored planets whose
comparator result is Equal (ties and incomparable NaN pairs alike) appear
in the sorted output in their previous relative order. -/
def keeps_equal_order (pre out : List PlanetData) : Prop :=
  ∀ i j : ℕ, ∀ hij : i < j, ∀ hj : j < pre.length,
    cmpD (pre.get ⟨i, hij.trans hj⟩).get_semi_major_axis
      (pre.get ⟨j, hj⟩).get_semi_major_axis = .eq →
    [pre.get ⟨i, hij.trans hj⟩, pre.get ⟨j, hj⟩].Sublist out

/-- cex_planet_far has semi-major axis 3. -/
def cex_planet_far : PlanetData :=
  { name := "far", orbital_parameters := ⟨some 3, 0⟩, rest := 0 }

/-- cex_planet_nan has a NaN semi-major axis: it compares Equal with
everything under the `unwrap_or(Equal)` comparator. -/
def cex_planet_nan : PlanetData :=
  { name := "nan", orbital_parameters := ⟨none, 0⟩, rest := 0 }

/-- cex_planet_near has semi-major axis 2, smaller than cex_planet_far. -/
def cex_planet_near : PlanetData :=
  { name := "near", orbital_parameters := ⟨some 2, 0⟩, rest := 0 }

/-- cex_planet_system stores the far planet and then the NaN planet. -/
def cex_planet_system : CelestialSystem :=
  { central_body := ⟨"sun", 5⟩
    planets := [cex_planet_far, cex_planet_nan]
    constellations := []
    distant_stars := []
    time_since_epoch := some 0 }

/-! ## Concrete sample inputs used by the witness theorems -/

/-- sample_ext is a concrete instantiation of the external library
functions: the derived appearance takes the star's payload as illuminance,
and two appearances are apparently the same when their names agree. -/
def sample_ext : Ext where
  to_star_appearance := fun d t =>
    { name := d.name, illuminance := some (d.rest : ℚ)
      pos := ⟨0, 0, 1⟩, time_since_epoch := t }
  apparently_the_same := fun a b => a.name == b.name
  update_constellations := fun _ => []
  has_changed := fun _ _ _ => true

def sample_planet_inner : PlanetData :=
  { name := "inner", orbital_parameters := ⟨some 1, 0⟩, rest := 0 }

def sample_planet_outer : PlanetData :=
  { name := "outer", orbital_parameters := ⟨some 2, 0⟩, rest := 0 }

def sample_star_data (nm : String) (bright : ℕ) : StarData :=
  { name := nm, rest := bright }

def sample_appearance (nm : String) (ill : FloatVal) : StarAppearance :=
  { name := nm, illuminance := ill, pos := ⟨0, 0, 1⟩
    time_since_epoch := some 0 }

/-- sample_system_p is a one-planet system. -/
def sample_system_p : CelestialSystem :=
  { central_body := ⟨"sun", 5⟩
    planets := [sample_planet_outer]
    distant_stars := []
    constellations := []
    time_since_epoch := some 0 }

/-- sample_system_s is a one-distant-star system. -/
def sample_system_s : CelestialSystem :=
  { central_body := ⟨"sun", 5⟩
    planets := []
    distant_stars :=
      [Star.from_appearance (sample_appearance "known" (some 4)) (some 0)]
    constellations := []
    time_since_epoch := some 0 }

/-- cex_known is the pre-existing appearance of the C10 counterexample. -/
def cex_known : StarAppearance := sample_appearance "dup" (some 4)

/-- cex_dup1 is the first input appearance matching cex_known. -/
def cex_dup1 : StarAppearance := sample_appearance "dup" (some 3)

/-- cex_dup2 is the second input appearance matching cex_known; only the
first match is removed, so this one is appended. -/
def cex_dup2 : StarAppearance := sample_appearance "dup" (some 1)

/-- cex_system holds one distant star whose appearance is cex_known. -/
def cex_system : CelestialSystem :=
  { central_body := ⟨"sun", 5⟩
    planets := []
    distant_stars := [Star.from_appearance cex_known (some 0)]
    constellations := []
    time_since_epoch := some 0 }

/-- sample_env instantiates every external effect concretely: identity
angle normalization, cancelled file dialogs, failing network and
generator calls, and inert dialogs. -/
def sample_env : Env :=
  { ext := sample_ext
    normalized_angle := fun a => a
    file_dialog_new := none
    file_dialog_open := none
    write_file := fun _ _ => none
    read_file := fun _ => .error 0
    generate_random_star := .error 0
    generate_random_stars := fun _ => .ok []
    fetch_brightest_stars := fun _ => .error 0
    fetch_simulated_stars := .ok []
    get_many_stars := []
    sun_data := ⟨"sun", 5⟩
    real_planets := []
    dialog_update := fun d _ => d
    dialog_submit := fun _ => .dialogClosed
    new_system_dialog := ⟨none, none, 1⟩
    planet_dialog_new := fun _ => .ok ⟨none, none, 2⟩
    planet_dialog_edit := fun _ _ _ _ => .ok ⟨none, none, 3⟩
    star_dialog_new := fun _ => ⟨none, none, 4⟩
    star_dialog_edit := fun _ _ _ => ⟨none, none, 5⟩
    randomize_planets_dialog := ⟨none, none, 6⟩
    load_real_planets_dialog := ⟨none, none, 7⟩
    randomize_stars_dialog := ⟨none, none, 8⟩
    load_real_stars_dialog := ⟨none, none, 9⟩ }

/-- sample_gui mirrors `Gui::default()`: surface mode, no system, no
dialog, one-day time step. -/
def sample_gui : Gui :=
  { opened_file := none
    mode := .surface
    surface_view_state := SurfaceViewState.new
    top_view_state := TopViewState.new
    table_view_state := ⟨.planet⟩
    time_step := some 1
    celestial_system := none
    selected_planet_name := ""
    display_names := true
    display_constellations := false
    dialog := none }

/-- cex_surface_state has a stale background geometry in its cache. -/
def cex_surface_state : SurfaceViewState :=
  { SurfaceViewState.new with background_cache := some 7 }

/-- cex_gui is in surface mode with a filled background cache; no
message handler ever clears it. -/
def cex_gui : Gui :=
  { sample_gui with surface_view_state := cex_surface_state }

/-! ## Theorems -/

theorem cmpQ_ne_gt_iff_le {x y : ℚ} : (cmpQ x y ≠ .gt) ↔ x ≤ y := by
  unfold cmpQ
  split_ifs with h1 h2
  · simpa using le_of_lt h1
  · simpa using le_of_eq h2
  · have hyx : y < x := lt_of_le_of_ne (not_lt.mp h1) (fun h => h2 h.symm)
    simp only [ne_eq, not_true_eq_false, false_iff]
    exact not_le.mpr hyx

theorem cmpD_some_some {x y : ℚ} : cmpD (some x) (some y) = cmpQ x y := rfl

theorem cmpD_none_left {b : FloatVal} : cmpD none b = .eq := by
  unfold cmpD pcmp; cases b <;> rfl

theorem cmpD_none_right {a : FloatVal} : cmpD a none = .eq := by
  unfold cmpD pcmp; cases a <;> rfl

theorem cmpQ_eq_iff {x y : ℚ} : cmpQ x y = .eq ↔ x = y := by
  unfold cmpQ
  split_ifs with h1 h2
  · simpa using ne_of_lt h1
  · simpa using h2
  · simpa using h2

theorem cmpQ_gt_iff {x y : ℚ} : cmpQ x y = .gt ↔ y < x := by
  unfold cmpQ
  split_ifs with h1 h2
  · simpa using lt_asymm h1
  · simp [h2]
  · simpa using lt_of_le_of_ne (not_lt.mp h1) (fun h => h2 h.symm)

theorem ord_bne_gt_iff {o : Ordering} : ((o != .gt) = true) ↔ o ≠ .gt := by
  cases o <;> simp <;> decide

theorem cmpD_bne_gt_iff {x y : ℚ} :
    ((cmpD (some x) (some y) != .gt) = true) ↔ x ≤ y := by
  rw [ord_bne_gt_iff, cmpD_some_some]
  exact cmpQ_ne_gt_iff_le

theorem cmpD_total (x y : FloatVal) :
    ((cmpD x y != .gt) || (cmpD y x != .gt)) = true := by
  rcases x with _ | x
  · rw [cmpD_none_left]
    rfl
  · rcases y with _ | y
    · rw [cmpD_none_right]
      rfl
    · by_cases h : x ≤ y
      · simp [cmpD_bne_gt_iff.mpr h]
      · have hyx : y ≤ x := le_of_not_le h
        simp [cmpD_bne_gt_iff.mpr hyx]

theorem cmpD_le_trans {x y z : FloatVal}
    (hx : x.isSome = true) (hy : y.isSome = true) (hz : z.isSome = true)
    (hxy : (cmpD x y != .gt) = true) (hyz : (cmpD y z != .gt) = true) :
    (cmpD x z != .gt) = true := by
  obtain ⟨a, rfl⟩ := Option.isSome_iff_exists.mp hx
  obtain ⟨b, rfl⟩ := Option.isSome_iff_exists.mp hy
  obtain ⟨c, rfl⟩ := Option.isSome_iff_exists.mp hz
  exact cmpD_bne_gt_iff.mpr
    ((cmpD_bne_gt_iff.mp hxy).trans (cmpD_bne_gt_iff.mp hyz))

theorem cmpD_eq_symm {x y : FloatVal} (h : cmpD x y = .eq) :
    cmpD y x = .eq := by
  rcases x with _ | a
  · exact cmpD_none_right
  · rcases y with _ | b
    · exact cmpD_none_left
    · rw [cmpD_some_some] at h ⊢
      rw [cmpQ_eq_iff] at h
      exact cmpQ_eq_iff.mpr h.symm

theorem cmpD_eq_bne_gt {x y : FloatVal} (h : cmpD x y = .eq) :
    (cmpD x y != .gt) = true := by
  rw [h]; rfl

/-! ## Generic facts about the stable sort used by `Vec::sort_by`

The comparators in the repository default incomparable pairs to `Equal`,
which makes them total but not transitive when NaN keys are present.  The
lemmas below therefore only assume transitivity for elements of the list
being sorted, and transport along `List.attach` to apply the library
lemmas about `List.mergeSort`. -/

section SortTransport

variable {α : Type} (le : α → α → Bool)

theorem enumLE_total (htotal : ∀ a b : α, le a b || le b a) :
    ∀ p q : ℕ × α, List.enumLE le p q || List.enumLE le q p := by
  intro p q
  simp only [List.enumLE]
  have h := htotal p.2 q.2
  cases hpq : le p.2 q.2 <;> cases hqp : le q.2 p.2 <;>
      simp_all <;> omega

theorem enumLE_trans
    (htotal : ∀ a b : α, le a b || le b a)
    (htrans : ∀ a b c : α, le a b → le b c → le a c) :
    ∀ p q r : ℕ × α, List.enumLE le p q → List.enumLE le q r →
      List.enumLE le p r := by
  intro p q r hpq hqr
  simp only [List.enumLE] at *
  cases hpq2 : le p.2 q.2 <;> rw [hpq2] at hpq <;> simp at hpq
  cases hqr2 : le q.2 r.2 <;> rw [hqr2] at hqr <;> simp at hqr
  have hpr2 : le p.2 r.2 = true := htrans _ _ _ hpq2 hqr2
  rw [hpr2]
  simp only [if_true]
  cases hrp2 : le r.2 p.2 <;> simp
  have hrq2 : le r.2 q.2 = true := htrans _ _ _ hrp2 hpq2
  have hqp2 : le q.2 p.2 = true := htrans _ _ _ hqr2 hrp2
  rw [hrq2] at hqr
  rw [hqp2] at hpq
  simp at hpq hqr
  omega

/-- mergeSort_pairwise_local restates `List.sorted_mergeSort` with
transitivity only required among members of the sorted list, which is all
the NaN-defaulting comparators of the repository can offer. -/
theorem mergeSort_pairwise_local (l : List α)
    (htotal : ∀ a b : α, le a b || le b a)
    (htrans : ∀ a ∈ l, ∀ b ∈ l, ∀ c ∈ l, le a b → le b c → le a c) :
    (l.mergeSort le).Pairwise (fun a b => le a b = true) := by
  have hmap : (l.attach.mergeSort (fun a b => le a.1 b.1)).map Subtype.val
      = l.mergeSort le := by
    rw [List.map_mergeSort (s := le)]
    · congr 1
      simp
    · intro a _ b _
      rfl
  rw [← hmap]
  rw [List.pairwise_map]
  exact List.sorted_mergeSort
    (fun a b c hab hbc => htrans a.1 a.2 b.1 b.2 c.1 c.2 hab hbc)
    (fun a b => htotal a.1 b.1) l.attach

/-- pair_sublist_of_lt extracts the two-element sublist at positions
`i < j` of a list. -/
theorem pair_sublist_of_lt (l : List α) (i j : ℕ) (hij : i < j)
    (hj : j < l.length) :
    [l.get ⟨i, hij.trans hj⟩, l.get ⟨j, hj⟩].Sublist l := by
  have := @List.map_get_sublist _ l [⟨i, hij.trans hj⟩, ⟨j, hj⟩]
    (by simp [hij])
  simpa using this

/-- mergeSort_stable_pair is the stability statement: two list members whose
comparison (with ties and incomparable pairs defaulted to equal) is an
equality keep their relative order in the index-tagged run of the sort.
`List.mergeSort_enum` connects that tagged run to the untagged sort the
code performs. -/
theorem mergeSort_stable_pair (l : List α)
    (htotal : ∀ a b : α, le a b || le b a)
    (htrans : ∀ a ∈ l, ∀ b ∈ l, ∀ c ∈ l, le a b → le b c → le a c)
    (i j : ℕ) (hij : i < j) (hj : j < l.length)
    (hle : le (l.get ⟨i, hij.trans hj⟩) (l.get ⟨j, hj⟩) = true)
    (hge : le (l.get ⟨j, hj⟩) (l.get ⟨i, hij.trans hj⟩) = true) :
    [(i, l.get ⟨i, hij.trans hj⟩), (j, l.get ⟨j, hj⟩)].Sublist
      (l.enum.mergeSort (List.enumLE le)) := by
  classical
  have hi : i < l.length := hij.trans hj
  have hia : i < l.attach.length := by simpa using hi
  have hja : j < l.attach.length := by simpa using hj
  have hie : i < l.attach.enum.length := by simpa using hia
  have hje : j < l.attach.enum.length := by simpa using hja
  set rsub : {x // x ∈ l} → {x // x ∈ l} → Bool :=
    fun a b => le a.1 b.1 with hrsub
  have hrt : ∀ a b : {x // x ∈ l}, rsub a b || rsub b a :=
    fun a b => htotal a.1 b.1
  have hrtr : ∀ a b c : {x // x ∈ l}, rsub a b → rsub b c → rsub a c :=
    fun a b c hab hbc => htrans a.1 a.2 b.1 b.2 c.1 c.2 hab hbc
  -- the tagged subtype sort projects onto the tagged sort of `l`
  have hproj : (l.attach.enum.mergeSort (List.enumLE rsub)).map
      (Prod.map id Subtype.val) = l.enum.mergeSort (List.enumLE le) := by
    rw [List.map_mergeSort (s := List.enumLE le)]
    · have h1 : l.attach.enum.map (Prod.map id Subtype.val)
          = (l.attach.map Subtype.val).enum := (List.enum_map _ _).symm
      rw [h1]
      congr 1
      simp
    · intro a _ b _
      rfl
  -- the two tagged elements, pairwise ordered under enumLE
  have hpair : List.Pairwise (fun a b => List.enumLE rsub a b = true)
      [(i, l.attach.get ⟨i, hia⟩), (j, l.attach.get ⟨j, hja⟩)] := by
    refine List.pairwise_pair.mpr ?_
    have hvi : (l.attach.get ⟨i, hia⟩).1 = l.get ⟨i, hi⟩ := by
      simp [List.get_eq_getElem, List.getElem_attach]
    have hvj : (l.attach.get ⟨j, hja⟩).1 = l.get ⟨j, hj⟩ := by
      simp [List.get_eq_getElem, List.getElem_attach]
    simp only [List.enumLE, hrsub, hvi, hvj]
    rw [hle, hge]
    simp [Nat.le_of_lt hij]
  have hsub : [(i, l.attach.get ⟨i, hia⟩),
      (j, l.attach.get ⟨j, hja⟩)].Sublist l.attach.enum := by
    have hs := pair_sublist_of_lt l.attach.enum i j hij hje
    have hgi : l.attach.enum.get ⟨i, hie⟩ = (i, l.attach.get ⟨i, hia⟩) := by
      simp [List.get_eq_getElem, List.getElem_enum]
    have hgj : l.attach.enum.get ⟨j, hje⟩ = (j, l.attach.get ⟨j, hja⟩) := by
      simp [List.get_eq_getElem, List.getElem_enum]
    rw [hgi, hgj] at hs
    exact hs
  have hstable := List.sublist_mergeSort
    (enumLE_trans rsub hrt hrtr) (enumLE_total rsub hrt) hpair hsub
  have hmapped := hstable.map (Prod.map id Subtype.val)
  rw [hproj] at hmapped
  have hvi : (l.attach.get ⟨i, hia⟩).1 = l.get ⟨i, hi⟩ := by
    simp [List.get_eq_getElem, List.getElem_attach]
  have hvj : (l.attach.get ⟨j, hja⟩).1 = l.get ⟨j, hj⟩ := by
    simp [List.get_eq_getElem, List.getElem_attach]
  simpa [hvi, hvj] using hmapped

end SortTransport

/-! ## Claim theorems -/

theorem planet_le_total (a b : PlanetData) :
    (planet_le a b || planet_le b a) = true :=
  cmpD_total _ _

theorem planet_le_trans_of_comparable {l : List PlanetData}
    (h : planets_comparable l) :
    ∀ a ∈ l, ∀ b ∈ l, ∀ c ∈ l,
      planet_le a b → planet_le b c → planet_le a c :=
  fun a ha b hb c hc hab hbc =>
    cmpD_le_trans (h a ha) (h b hb) (h c hc) hab hbc

/-- planets_post_sort is the shared core of C1: one stable-sort pass on a
list with comparable keys yields a non-decreasing list and keeps the order
of comparator-equal positions. -/
theorem planets_post_sort (l : List PlanetData)
    (h : planets_comparable l) :
    planets_sorted (l.mergeSort planet_le)
    ∧ planets_stable_wrt l (l.mergeSort planet_le) := by
  refine ⟨?_, ?_, ?_⟩
  · have hp := mergeSort_pairwise_local planet_le l planet_le_total
      (planet_le_trans_of_comparable h)
    refine hp.imp_of_mem ?_
    intro a b ha hb hle
    have hal : a ∈ l := (List.mergeSort_perm l planet_le).subset ha
    have hbl : b ∈ l := (List.mergeSort_perm l planet_le).subset hb
    obtain ⟨x, hx⟩ := Option.isSome_iff_exists.mp (h a hal)
    obtain ⟨y, hy⟩ := Option.isSome_iff_exists.mp (h b hbl)
    unfold planet_le at hle
    rw [hx, hy] at hle
    have := cmpD_bne_gt_iff.mp hle
    simp [smaQ, hx, hy, this]
  · exact (List.mergeSort_enum).symm
  · intro i j hij hj heq
    exact mergeSort_stable_pair planet_le l planet_le_total
      (planet_le_trans_of_comparable h) i j hij hj
      (cmpD_eq_bne_gt heq) (cmpD_eq_bne_gt (cmpD_eq_symm heq))

/-- C1, amended: after `add_planet_data(planet)` or
`overwrite_planet_data(index, planet)` with a valid index, when the
semi-major axes involved are actual numbers the stored planets vector is
ordered by orbital semi-major axis (non-decreasing) and the sort is
stable: planets whose semi-major axes compare equal keep their previous
relative order.  The counterexample forces the amendment: with a NaN key
the comparator is not a total order, stability fails for incomparable
pairs in the stable-merge-sort embedding, and Rust's `sort_by` leaves
the resulting order unspecified. -/
theorem C1_planet_sort_invariant (s : CelestialSystem)
    (planet : PlanetData) (index : ℕ)
    (hidx : index < s.planets.length) :
    (planets_comparable (s.planets ++ [planet]) →
      planets_sorted (s.add_planet_data planet).planets
      ∧ planets_stable_wrt (s.planets ++ [planet])
          (s.add_planet_data planet).planets)
    ∧ (planets_comparable (s.planets.set index planet) →
      planets_sorted (s.overwrite_planet_data index planet).planets
      ∧ planets_stable_wrt (s.planets.set index planet)
          (s.overwrite_planet_data index planet).planets) := by
  constructor
  · intro h
    exact planets_post_sort (s.planets ++ [planet]) h
  · intro h
    exact planets_post_sort (s.planets.set index planet) h

/-- C1 witness: the invariant applied to a concrete one-planet system,
adding a closer planet and separately overwriting position 0. -/
theorem C1_planet_sort_invariant_witness :
    (0 < sample_system_p.planets.length
      ∧ planets_comparable (sample_system_p.planets
          ++ [sample_planet_inner])
      ∧ planets_comparable (sample_system_p.planets.set 0
          sample_planet_inner))
    ∧ (planets_sorted
        (sample_system_p.add_planet_data sample_planet_inner).planets
      ∧ planets_stable_wrt
          (sample_system_p.planets ++ [sample_planet_inner])
          (sample_system_p.add_planet_data sample_planet_inner).planets)
    ∧ (planets_sorted
        (sample_system_p.overwrite_planet_data 0
          sample_planet_inner).planets
      ∧ planets_stable_wrt
          (sample_system_p.planets.set 0 sample_planet_inner)
          (sample_system_p.overwrite_planet_data 0
            sample_planet_inner).planets) :=
  ⟨⟨by decide, by decide, by decide⟩,
   (C1_planet_sort_invariant sample_system_p sample_planet_inner 0
      (by decide)).1 (by decide),
   (C1_planet_sort_invariant sample_system_p sample_planet_inner 0
      (by decide)).2 (by decide)⟩

theorem star_le_total (a b : Star) : (star_le a b || star_le b a) = true :=
  cmpD_total _ _

theorem star_le_trans_of_comparable {l : List Star}
    (h : stars_comparable l) :
    ∀ a ∈ l, ∀ b ∈ l, ∀ c ∈ l, star_le a b → star_le b c → star_le a c :=
  fun a ha b hb c hc hab hbc =>
    cmpD_le_trans (h c hc) (h b hb) (h a ha) hbc hab

/-- stars_post_sort is the shared core of C2: the reprocessing pass on a
distant-star vector with comparable illuminances leaves it sorted
brightest-first, adjacent pairs included. -/
theorem stars_post_sort (l : List Star) (h : stars_comparable l) :
    stars_sorted_desc
      ((l.mergeSort star_le).enum.map (fun p => p.2.set_index p.1)) := by
  have hp := mergeSort_pairwise_local star_le l star_le_total
    (star_le_trans_of_comparable h)
  have hsorted : (l.mergeSort star_le).Pairwise
      (fun a b => illumQ b ≤ illumQ a) := by
    refine hp.imp_of_mem ?_
    intro a b ha hb hle
    have hal : a ∈ l := (List.mergeSort_perm l star_le).subset ha
    have hbl : b ∈ l := (List.mergeSort_perm l star_le).subset hb
    obtain ⟨x, hx⟩ := Option.isSome_iff_exists.mp (h a hal)
    obtain ⟨y, hy⟩ := Option.isSome_iff_exists.mp (h b hbl)
    unfold star_le at hle
    rw [hx, hy] at hle
    have := cmpD_bne_gt_iff.mp hle
    simp [illumQ, hx, hy, this]
  have henum : (l.mergeSort star_le).enum.Pairwise
      (fun p q => illumQ q.2 ≤ illumQ p.2) := by
    have hm : ((l.mergeSort star_le).enum.map Prod.snd).Pairwise
        (fun a b => illumQ b ≤ illumQ a) := by
      rw [List.enum_map_snd]
      exact hsorted
    exact (List.pairwise_map.mp hm)
  have hmapped : ((l.mergeSort star_le).enum.map
      (fun p => p.2.set_index p.1)).Pairwise
      (fun a b => illumQ b ≤ illumQ a) := by
    rw [List.pairwise_map]
    exact henum.imp (fun hpq => hpq)
  exact hmapped.chain'

/-- C2: after `add_stars_from_data`, `add_star_appearances_without_
duplicates` or `overwrite_star_data`, the distant-stars vector is sorted
brightest first: each star's illuminance is at least that of its
successor.  Each conclusion assumes the illuminances of the pre-sort
vector are actual numbers, since for NaN keys the comparator is not a
total order and Rust leaves the resulting order unspecified. -/
theorem C2_stars_sorted_by_brightness (ext : Ext) (s : CelestialSystem)
    (star_data : List StarData) (apps : List StarAppearance)
    (index : Option ℕ) (new_star : StarData) :
    (stars_comparable (s.stars_with_new_data ext star_data) →
      stars_sorted_desc
        (s.add_stars_from_data ext star_data).distant_stars)
    ∧ (stars_comparable (s.stars_with_new_appearances ext apps) →
      stars_sorted_desc
        (s.add_star_appearances_without_duplicates ext
          apps).distant_stars)
    ∧ (stars_comparable (s.stars_overwritten ext index new_star) →
      stars_sorted_desc
        (s.overwrite_star_data ext index new_star).distant_stars) := by
  refine ⟨?_, ?_, ?_⟩
  · intro h
    exact stars_post_sort _ h
  · intro h
    exact stars_post_sort _ h
  · intro h
    cases index with
    | some i => exact stars_post_sort _ h
    | none => exact stars_post_sort _ h

/-- C2 witness: the three mutations applied to a concrete one-star
system. -/
theorem C2_stars_sorted_by_brightness_witness :
    (stars_comparable
        (sample_system_s.stars_with_new_data sample_ext
          [sample_star_data "a" 3])
      ∧ stars_comparable
        (sample_system_s.stars_with_new_appearances sample_ext
          [sample_appearance "b" (some 2)])
      ∧ stars_comparable
        (sample_system_s.stars_overwritten sample_ext (some 0)
          (sample_star_data "c" 6)))
    ∧ stars_sorted_desc
        (sample_system_s.add_stars_from_data sample_ext
          [sample_star_data "a" 3]).distant_stars
    ∧ stars_sorted_desc
        (sample_system_s.add_star_appearances_without_duplicates
          sample_ext [sample_appearance "b" (some 2)]).distant_stars
    ∧ stars_sorted_desc
        (sample_system_s.overwrite_star_data sample_ext (some 0)
          (sample_star_data "c" 6)).distant_stars :=
  ⟨⟨by decide, by decide, by decide⟩,
   (C2_stars_sorted_by_brightness sample_ext sample_system_s
      [sample_star_data "a" 3] [sample_appearance "b" (some 2)]
      (some 0) (sample_star_data "c" 6)).1 (by decide),
   (C2_stars_sorted_by_brightness sample_ext sample_system_s
      [sample_star_data "a" 3] [sample_appearance "b" (some 2)]
      (some 0) (sample_star_data "c" 6)).2.1 (by decide),
   (C2_stars_sorted_by_brightness sample_ext sample_system_s
      [sample_star_data "a" 3] [sample_appearance "b" (some 2)]
      (some 0) (sample_star_data "c" 6)).2.2 (by decide)⟩

/-- indexed_after_reprocess: the reindexing loop of
`sort_stars_by_brightness` stamps every position with itself. -/
theorem indexed_after_reprocess (l : List Star) :
    stars_indexed
      ((l.mergeSort star_le).enum.map (fun p => p.2.set_index p.1)) := by
  intro k hk
  have hk' : k < (l.mergeSort star_le).enum.length := by
    simpa using hk
  have hk'' : k < (l.mergeSort star_le).length := by
    simpa using hk'
  simp [List.get_eq_getElem, List.getElem_map, List.getElem_enum,
    Star.set_index]

/-- C9: after every star-list mutation the star stored at position `k`
carries index `some k`, and `get_stars` returns the central body first
(data intact, index None) followed by the distant stars in stored
order. -/
theorem C9_star_index_consistency (ext : Ext) (s : CelestialSystem)
    (star_data : List StarData) (apps : List StarAppearance)
    (index : Option ℕ) (new_star : StarData) :
    stars_indexed (s.add_stars_from_data ext star_data).distant_stars
    ∧ stars_indexed
        (s.add_star_appearances_without_duplicates ext
          apps).distant_stars
    ∧ stars_indexed
        (s.overwrite_star_data ext index new_star).distant_stars
    ∧ ∀ t : CelestialSystem, ∃ c,
        t.get_stars ext = c :: t.distant_stars
        ∧ c.index = none ∧ c.data = some t.central_body := by
  refine ⟨?_, ?_, ?_, ?_⟩
  · exact indexed_after_reprocess _
  · exact indexed_after_reprocess _
  · cases index with
    | some i => exact indexed_after_reprocess _
    | none => exact indexed_after_reprocess _
  · intro t
    exact ⟨Star.from_data ext t.central_body none t.time_since_epoch,
      rfl, rfl, rfl⟩

theorem push_appearances_map_appearance
    (apps : List StarAppearance) : ∀ stars : List Star,
    (push_appearances stars apps).map Star.get_appearance
      = stars.map Star.get_appearance ++ apps := by
  induction apps with
  | nil =>
    intro stars
    simp [push_appearances]
  | cons a rest ih =>
    intro stars
    rw [push_appearances, ih]
    simp [Star.from_appearance, Star.get_appearance]

theorem remove_known_sublist (ext : Ext) (k : StarAppearance) :
    ∀ l : List StarAppearance,
      (remove_known_star_from_list ext l k).Sublist l := by
  intro l
  induction l with
  | nil => simp [remove_known_star_from_list]
  | cons a rest ih =>
    rw [remove_known_star_from_list]
    split
    · exact List.sublist_cons_self a rest
    · exact ih.cons₂ a

theorem foldl_remove_sublist (ext : Ext) (ks : List StarAppearance) :
    ∀ acc : List StarAppearance,
      (ks.foldl (fun l k => remove_known_star_from_list ext l k)
        acc).Sublist acc := by
  induction ks with
  | nil =>
    intro acc
    simp
  | cons k rest ih =>
    intro acc
    rw [List.foldl_cons]
    exact (ih _).trans (remove_known_sublist ext k acc)

theorem mem_remove_of_no_match (ext : Ext) (k : StarAppearance)
    (a : StarAppearance) (hno : ext.apparently_the_same a k = false) :
    ∀ l : List StarAppearance, a ∈ l →
      a ∈ remove_known_star_from_list ext l k := by
  intro l
  induction l with
  | nil => simp
  | cons b rest ih =>
    intro hmem
    rw [remove_known_star_from_list]
    rcases List.mem_cons.mp hmem with rfl | hmem
    · rw [hno]
      simp
    · split
      · exact hmem
      · exact List.mem_cons_of_mem b (ih hmem)

theorem mem_foldl_remove (ext : Ext) (ks : List StarAppearance)
    (a : StarAppearance) :
    ∀ acc : List StarAppearance, a ∈ acc →
      (∀ k ∈ ks, ext.apparently_the_same a k = false) →
      a ∈ ks.foldl (fun l k => remove_known_star_from_list ext l k) acc := by
  induction ks with
  | nil =>
    intro acc hmem _
    simpa using hmem
  | cons k rest ih =>
    intro acc hmem hno
    rw [List.foldl_cons]
    exact ih _
      (mem_remove_of_no_match ext k a (hno k (by simp)) acc hmem)
      (fun k' hk' => hno k' (List.mem_cons_of_mem k hk'))

/-- processed_appearances: reprocessing permutes the stored appearances
(sorting reorders, reindexing does not touch the appearance). -/
theorem processed_appearances (ext : Ext) (s : CelestialSystem)
    (l : List Star) :
    ((CelestialSystem.process_stars ext
        { s with distant_stars := l }).distant_stars.map
      Star.get_appearance).Perm (l.map Star.get_appearance) := by
  have h1 : (CelestialSystem.process_stars ext
      { s with distant_stars := l }).distant_stars
      = (l.mergeSort star_le).enum.map (fun p => p.2.set_index p.1) := rfl
  rw [h1]
  have h2 : ((l.mergeSort star_le).enum.map
      (fun p => p.2.set_index p.1)).map Star.get_appearance
      = (l.mergeSort star_le).map Star.get_appearance := by
    rw [List.map_map]
    have h3 : (Star.get_appearance ∘ fun p : ℕ × Star =>
        p.2.set_index p.1) = (fun p : ℕ × Star => p.2.get_appearance) := by
      funext p
      rfl
    rw [h3]
    have h4 : (fun p : ℕ × Star => p.2.get_appearance)
        = Star.get_appearance ∘ Prod.snd := rfl
    rw [h4, ← List.map_map, List.enum_map_snd]
  rw [h2]
  exact (List.mergeSort_perm l star_le).map Star.get_appearance

/-- C10 counterexample: with two input appearances both apparently the
same as one already-present star, only the first is suppressed; the
second is added even though it matches a pre-existing appearance, so the
claim as stated fails on this input. -/
theorem C10_counterexample :
    ¬ claim_never_adds_duplicates sample_ext cex_system
      [cex_dup1, cex_dup2] := by
  intro hclaim
  have h := hclaim cex_dup2 (by decide) ⟨cex_known, by decide, by decide⟩
  rcases h with hnot | hold
  · apply hnot
    have hperm := processed_appearances sample_ext cex_system
      (cex_system.stars_with_new_appearances sample_ext
        [cex_dup1, cex_dup2])
    have hmem : cex_dup2 ∈ (cex_system.stars_with_new_appearances
        sample_ext [cex_dup1, cex_dup2]).map Star.get_appearance := by
      decide
    exact hperm.mem_iff.mpr hmem
  · exact absurd hold (by decide)

/-- C10 amended: the duplicate filter drops, for each already-present
appearance in order, only the first remaining matching input appearance;
the system then appends exactly the surviving input appearances (the
stored appearances after the call are a permutation of the old ones plus
the survivors), the survivors are a sublist of the input, and every input
appearance matching no pre-existing appearance survives and is appended.
A later input duplicate of an already-matched known star is appended too,
which is what the counterexample exhibits. -/
theorem C10_duplicate_suppression_amended (ext : Ext)
    (s : CelestialSystem) (apps : List StarAppearance) :
    (((s.add_star_appearances_without_duplicates ext
        apps).distant_stars.map Star.get_appearance).Perm
      (s.distant_stars.map Star.get_appearance
        ++ s.surviving_appearances ext apps))
    ∧ (s.surviving_appearances ext apps).Sublist apps
    ∧ ∀ a ∈ apps,
        (∀ k ∈ s.get_distant_star_appearances,
          ext.apparently_the_same a k = false) →
        a ∈ s.surviving_appearances ext apps := by
  refine ⟨?_, ?_, ?_⟩
  · have h1 := processed_appearances ext s
      (s.stars_with_new_appearances ext apps)
    have h2 : (s.stars_with_new_appearances ext apps).map
        Star.get_appearance
        = s.distant_stars.map Star.get_appearance
          ++ s.surviving_appearances ext apps := by
      rw [CelestialSystem.stars_with_new_appearances,
        push_appearances_map_appearance]
    rw [h2] at h1
    exact h1
  · exact foldl_remove_sublist ext _ apps
  · intro a ha hno
    exact mem_foldl_remove ext _ a apps ha hno

/-- C10 amended witness: an input appearance matching nothing survives
the filter on a concrete system. -/
theorem C10_duplicate_suppression_amended_witness :
    (sample_appearance "fresh" (some 1)
        ∈ [sample_appearance "fresh" (some 1)]
      ∧ ∀ k ∈ cex_system.get_distant_star_appearances,
          sample_ext.apparently_the_same
            (sample_appearance "fresh" (some 1)) k = false)
    ∧ sample_appearance "fresh" (some 1)
        ∈ cex_system.surviving_appearances sample_ext
          [sample_appearance "fresh" (some 1)] :=
  ⟨⟨by decide, by decide⟩,
   (C10_duplicate_suppression_amended sample_ext cex_system
      [sample_appearance "fresh" (some 1)]).2.2
     (sample_appearance "fresh" (some 1)) (by decide) (by decide)⟩

/-! ## JSON round-trip lemmas -/

theorem decNat_encNat (n : ℕ) : decNat (encNat n) = some n := by
  simp [decNat, encNat]

theorem decFloat_encFloat {a : FloatVal} (h : a.isSome = true) :
    decFloat (encFloat a) = some a := by
  obtain ⟨x, rfl⟩ := Option.isSome_iff_exists.mp h
  rfl

theorem decOpt_encOpt {α : Type} (f : α → Json) (g : Json → Option α)
    (h : ∀ a, g (f a) = some a) (hnull : ∀ a, f a ≠ .null)
    (o : Option α) : decOpt g (encOpt f o) = some o := by
  cases o with
  | none => rfl
  | some a =>
    have hga := h a
    show decOpt g (f a) = some (some a)
    cases hfa : f a with
    | null => exact absurd hfa (hnull a)
    | num q =>
      rw [hfa] at hga
      simp [decOpt, hga]
    | str s =>
      rw [hfa] at hga
      simp [decOpt, hga]
    | arr items =>
      rw [hfa] at hga
      simp [decOpt, hga]
    | obj fields =>
      rw [hfa] at hga
      simp [decOpt, hga]

theorem mapM_round {α : Type} (enc : α → Json) (dec : Json → Option α)
    (l : List α) (h : ∀ a ∈ l, dec (enc a) = some a) :
    (l.map enc).mapM dec = some l := by
  induction l with
  | nil => rfl
  | cons a rest ih =>
    rw [List.map_cons, List.mapM_cons, h a (by simp),
      ih (fun b hb => h b (by simp [hb]))]
    rfl

theorem decOrbital_enc (o : OrbitalParameters)
    (h : o.semi_major_axis.isSome = true) :
    decOrbitalParameters (encOrbitalParameters o) = some o := by
  simp [decOrbitalParameters, encOrbitalParameters, getField,
    decFloat_encFloat h, decNat_encNat]

theorem decPlanet_enc (p : PlanetData)
    (h : p.get_semi_major_axis.isSome = true) :
    decPlanetData (encPlanetData p) = some p := by
  simp [decPlanetData, encPlanetData, getField, decStr,
    decOrbital_enc p.orbital_parameters h, decNat_encNat]

theorem decVec3_enc (v : Vec3) : decVec3 (encVec3 v) = some v := by
  simp [decVec3, encVec3, getField, decQ]

theorem decAppearance_enc (a : StarAppearance)
    (h : a.floats_finite) :
    decStarAppearance (encStarAppearance a) = some a := by
  obtain ⟨h1, h2⟩ := h
  simp [decStarAppearance, encStarAppearance, getField, decStr,
    decFloat_encFloat h1, decFloat_encFloat h2, decVec3_enc]

theorem decStarData_enc (d : StarData) :
    decStarData (encStarData d) = some d := by
  simp [decStarData, encStarData, getField, decStr, decNat_encNat]

theorem decStar_enc (s : Star) (h : s.appearance.floats_finite) :
    decStar (encStar s) = some s := by
  have hdata := decOpt_encOpt encStarData decStarData decStarData_enc
    (fun d => by simp [encStarData]) s.data
  have hidx := decOpt_encOpt encNat decNat decNat_encNat
    (fun n => by simp [encNat]) s.index
  simp [decStar, encStar, getField, hdata, hidx, decAppearance_enc _ h]

theorem decCelestialSystem_enc (s : CelestialSystem)
    (h : s.floats_finite) :
    decCelestialSystem (encCelestialSystem s) = some s := by
  obtain ⟨hp, hs, ht⟩ := h
  have hplanets := mapM_round encPlanetData decPlanetData s.planets
    (fun p hmem => decPlanet_enc p (hp p hmem))
  have hstars := mapM_round encStar decStar s.distant_stars
    (fun st hmem => decStar_enc st (hs st hmem))
  have hconst := mapM_round encNat decNat s.constellations
    (fun n _ => decNat_encNat n)
  unfold List.mapM at hplanets hstars hconst
  simp [decCelestialSystem, encCelestialSystem, getField, decArr,
    decStarData_enc, hplanets, hstars, hconst, decFloat_encFloat ht]

/-- C3: persistence is a whole-document round trip: writing a system to a
path and reading that path back returns an equal system, with central
body, planets, distant stars, constellations and time since epoch all
preserved.  The hypothesis asks that every float in the document is an
actual number: `serde_json` serializes a non-finite `f64` as `null`,
which does not deserialize back. -/
theorem C3_persistence_round_trip (fs : FileSys) (s : CelestialSystem)
    (path : String) (h : s.floats_finite) :
    CelestialSystem.read_from_file
      (CelestialSystem.write_to_file fs s path) path = some s := by
  unfold CelestialSystem.read_from_file CelestialSystem.write_to_file
  simp [decCelestialSystem_enc s h]

/-- C3 witness: the round trip on a concrete two-body document. -/
theorem C3_persistence_round_trip_witness :
    sample_system_s.floats_finite
    ∧ CelestialSystem.read_from_file
        (CelestialSystem.write_to_file (fun _ => none) sample_system_s
          "orbit.json") "orbit.json" = some sample_system_s :=
  ⟨by decide,
   C3_persistence_round_trip (fun _ => none) sample_system_s
     "orbit.json" (by decide)⟩

/-! ## GUI lemmas and claims C4, C5, C8 -/

theorem randomize_stars_error_ne_missing (env : Env)
    (s : CelestialSystem) (keep : Bool) (maxd : FloatVal)
    (s1 : CelestialSystem) (e : ElenathError)
    (h : s.randomize_stars env keep maxd = (s1, some e)) :
    e ≠ .noCelestialSystem := by
  intro heq
  subst heq
  unfold CelestialSystem.randomize_stars at h
  repeat' split at h
  all_goals simp_all

theorem load_gaia_error_ne_missing (env : Env) (s : CelestialSystem)
    (threshold : ℚ) (s1 : CelestialSystem) (e : ElenathError)
    (h : s.load_gaia_data env threshold = (s1, some e)) :
    e ≠ .noCelestialSystem := by
  intro heq
  subst heq
  unfold CelestialSystem.load_gaia_data at h
  repeat' split at h
  all_goals simp_all

theorem load_real_stars_error_ne_missing (env : Env)
    (s : CelestialSystem) (t : StarDataType) (s1 : CelestialSystem)
    (e : ElenathError) (h : s.load_real_stars env t = (s1, some e)) :
    e ≠ .noCelestialSystem := by
  unfold CelestialSystem.load_real_stars at h
  cases t with
  | hardcoded => simp_all
  | gaiaMeasurementSmall => exact load_gaia_error_ne_missing _ _ _ _ _ h
  | gaiaMeasurementLarge => exact load_gaia_error_ne_missing _ _ _ _ _ h
  | gaiaSimulation =>
    intro heq
    subst heq
    repeat' split at h
    all_goals simp_all

/-- C4: for every system-requiring message, with no open dialog reporting
an error, `handle_message` returns the missing-system error exactly when
no celestial system is loaded, and in that case the whole Gui state is
left unchanged. -/
theorem C4_missing_system_error (env : Env) (g : Gui) (m : GuiMessage)
    (hreq : system_requiring m = true)
    (hdlg : g.dialog.bind Dialog.get_error = none) :
    ((Gui.handle_message env g m).2
        = .err ElenathError.noCelestialSystem
      ↔ g.celestial_system = none)
    ∧ (g.celestial_system = none →
        (Gui.handle_message env g m).1 = g) := by
  unfold Gui.handle_message Gui.hm Gui.hm_step
  rw [hdlg]
  dsimp only
  cases m
  all_goals try dsimp only
  case newPlanet p =>
    cases hsys : g.celestial_system with
    | none => exact ⟨by simp, fun _ => rfl⟩
    | some s =>
      dsimp only
      refine ⟨⟨fun hres => ?_, fun hc => by simp at hc⟩,
        fun hc => by simp at hc⟩
      simp at hres
  case planetEdited index p =>
    cases hsys : g.celestial_system with
    | none => exact ⟨by simp, fun _ => rfl⟩
    | some s =>
      dsimp only
      refine ⟨⟨fun hres => ?_, fun hc => by simp at hc⟩,
        fun hc => by simp at hc⟩
      split at hres <;> simp at hres
  case newStar d =>
    cases hsys : g.celestial_system with
    | none => exact ⟨by simp, fun _ => rfl⟩
    | some s =>
      dsimp only
      refine ⟨⟨fun hres => ?_, fun hc => by simp at hc⟩,
        fun hc => by simp at hc⟩
      simp at hres
  case starEdited index d =>
    cases hsys : g.celestial_system with
    | none => exact ⟨by simp, fun _ => rfl⟩
    | some s =>
      dsimp only
      refine ⟨⟨fun hres => ?_, fun hc => by simp at hc⟩,
        fun hc => by simp at hc⟩
      cases index with
      | some i =>
        dsimp only at hres
        split at hres <;> simp at hres
      | none => simp at hres
  case updateTime t =>
    cases hsys : g.celestial_system with
    | none => exact ⟨by simp, fun _ => rfl⟩
    | some s =>
      dsimp only
      refine ⟨⟨fun hres => ?_, fun hc => by simp at hc⟩,
        fun hc => by simp at hc⟩
      simp at hres
  case randomizePlanets =>
    cases hsys : g.celestial_system with
    | none => exact ⟨by simp, fun _ => rfl⟩
    | some s =>
      dsimp only
      refine ⟨⟨fun hres => ?_, fun hc => by simp at hc⟩,
        fun hc => by simp at hc⟩
      simp at hres
  case loadRealPlanets =>
    cases hsys : g.celestial_system with
    | none => exact ⟨by simp, fun _ => rfl⟩
    | some s =>
      dsimp only
      refine ⟨⟨fun hres => ?_, fun hc => by simp at hc⟩,
        fun hc => by simp at hc⟩
      simp at hres
  case randomizeStars keep maxd =>
    cases hsys : g.celestial_system with
    | none => exact ⟨by simp, fun _ => rfl⟩
    | some s =>
      dsimp only
      refine ⟨⟨fun hres => ?_, fun hc => by simp at hc⟩,
        fun hc => by simp at hc⟩
      rcases hr : s.randomize_stars env keep maxd with ⟨s1, oe⟩
      rw [hr] at hres
      cases oe with
      | some e =>
        simp at hres
        exact absurd hres
          (randomize_stars_error_ne_missing env s keep maxd s1 e hr)
      | none => simp at hres
  case loadStars t =>
    cases hsys : g.celestial_system with
    | none => exact ⟨by simp, fun _ => rfl⟩
    | some s =>
      dsimp only
      refine ⟨⟨fun hres => ?_, fun hc => by simp at hc⟩,
        fun hc => by simp at hc⟩
      rcases hr : s.load_real_stars env t with ⟨s1, oe⟩
      rw [hr] at hres
      cases oe with
      | some e =>
        simp at hres
        exact absurd hres
          (load_real_stars_error_ne_missing env s t s1 e hr)
      | none => simp at hres
  all_goals exact absurd hreq (by simp [system_requiring])

/-- C4 witness: a concrete UpdateTime message on the default Gui with no
loaded system. -/
theorem C4_missing_system_error_witness :
    (system_requiring (GuiMessage.updateTime (some 3)) = true
      ∧ sample_gui.dialog.bind Dialog.get_error = none)
    ∧ (((Gui.handle_message sample_env sample_gui
          (.updateTime (some 3))).2
        = .err ElenathError.noCelestialSystem)
      ↔ sample_gui.celestial_system = none)
    ∧ (sample_gui.celestial_system = none →
        (Gui.handle_message sample_env sample_gui
          (.updateTime (some 3))).1 = sample_gui) :=
  ⟨⟨by decide, by decide⟩,
   C4_missing_system_error sample_env sample_gui (.updateTime (some 3))
     (by decide) (by decide)⟩

/-- C5: every error returned by `handle_message` is surfaced as a modal
dialog: `update` stores an ErrorDialog carrying that very error in
`self.dialog`, on top of whatever state `handle_message` left. -/
theorem C5_errors_become_modal_dialog (env : Env) (g : Gui)
    (m : GuiMessage) (g1 : Gui) (e : ElenathError)
    (h : Gui.handle_message env g m = (g1, .err e)) :
    Gui.update env g m = { g1 with dialog := some (ErrorDialog.new e) } := by
  unfold Gui.update
  rw [h]

/-- C5 witness: adding a planet with no loaded system pops the
missing-system error dialog. -/
theorem C5_errors_become_modal_dialog_witness :
    Gui.update sample_env sample_gui (.newPlanet sample_planet_inner)
      = { sample_gui with
          dialog := some (ErrorDialog.new .noCelestialSystem) } :=
  C5_errors_become_modal_dialog sample_env sample_gui
    (.newPlanet sample_planet_inner) sample_gui .noCelestialSystem rfl

theorem redraw_caches_cleared (g : Gui) :
    caches_cleared g.redraw = true := by
  cases hmode : g.mode <;>
    simp [Gui.redraw, caches_cleared, hmode, SurfaceViewState.redraw,
      TopViewState.redraw]

theorem save_current_ok (env : Env) (x : Gui) (g1 : Gui)
    (h : Gui.save_current env x = (g1, .ok)) :
    caches_cleared g1 = true := by
  unfold Gui.save_current at h
  repeat' split at h
  all_goals
    first
    | (injection h with h1 h2
       subst h1
       exact redraw_caches_cleared _)
    | (subst h
       exact redraw_caches_cleared _)
    | simp_all

theorem open_chosen_ok (env : Env) (x : Gui) (g1 : Gui)
    (h : Gui.open_chosen env x = (g1, .ok)) :
    caches_cleared g1 = true := by
  unfold Gui.open_chosen at h
  repeat' split at h
  all_goals
    first
    | (injection h with h1 h2
       subst h1
       exact redraw_caches_cleared _)
    | (subst h
       exact redraw_caches_cleared _)
    | simp_all

/-- C8 counterexample: the claim as stated says the caches of the current
view are cleared after every successfully handled message; in surface
mode the background cache is one of the surface-view caches, yet a
successfully handled message leaves a stale background geometry in
place. -/
theorem C8_counterexample :
    (Gui.handle_message sample_env cex_gui (.setDisplayNames true)).2
        = .ok
    ∧ caches_cleared_strong
        (Gui.handle_message sample_env cex_gui
          (.setDisplayNames true)).1 = false := by
  exact ⟨rfl, rfl⟩

/-- C8 amended: after `handle_message` returns Ok for any message, the
caches cleared by the active view's `redraw` are empty: the bodies cache
in Surface mode, the bodies and scale caches in Top mode.  The
background caches are never invalidated by redraw. -/
theorem C8_ok_clears_view_caches (env : Env) (g : Gui) (m : GuiMessage)
    (g1 : Gui) (h : Gui.handle_message env g m = (g1, .ok)) :
    caches_cleared g1 = true := by
  unfold Gui.handle_message Gui.hm Gui.hm_step at h
  repeat' split at h
  all_goals
    first
    | (injection h with h1 h2
       subst h1
       exact redraw_caches_cleared _)
    | (subst h
       exact redraw_caches_cleared _)
    | exact save_current_ok env _ g1 h
    | exact open_chosen_ok env _ g1 h
    | simp_all

/-- C8 amended witness: handling NewSystem on the default Gui. -/
theorem C8_ok_clears_view_caches_witness :
    caches_cleared
      (Gui.handle_message sample_env sample_gui GuiMessage.newSystem).1
      = true :=
  C8_ok_clears_view_caches sample_env sample_gui .newSystem
    (Gui.handle_message sample_env sample_gui GuiMessage.newSystem).1
    rfl

/-! ## Claims C6 and C7 -/

/-- C6: for a star appearance visible in the viewport (positive z
component relative to the frame derived from the center and top
directions), the canvas offset is the relative direction scaled by
px_per_distance, with screen x the relative y component and screen y the
negated relative x component; an appearance with non-positive relative z
gets no offset; and a star whose position direction equals the viewport's
center direction gets the center offset (0, 0).  The hypotheses say the
frame axis is orthogonal to the unit center direction, which is what the
external rotation guarantees. -/
theorem C6_projection_formula (v : Viewport) (xhat : Vec3)
    (a : StarAppearance)
    (hortho : dot v.center_direction xhat = 0)
    (hunit : dot v.center_direction v.center_direction = 1) :
    (0 < (direction_relative_to_normal a.pos v.center_direction xhat).z →
      offset a v xhat = some
        ((direction_relative_to_normal a.pos v.center_direction xhat).y
            * v.px_per_distance,
          -(direction_relative_to_normal a.pos v.center_direction xhat).x
            * v.px_per_distance))
    ∧ ((direction_relative_to_normal a.pos v.center_direction xhat).z ≤ 0 →
      offset a v xhat = none)
    ∧ (a.pos = v.center_direction → offset a v xhat = some (0, 0)) := by
  refine ⟨?_, ?_, ?_⟩
  · intro hz
    simp [offset, hz]
  · intro hz
    simp [offset, not_lt.mpr hz]
  · intro hpos
    have hy : dot v.center_direction
        (cross v.center_direction xhat) = 0 := by
      unfold dot cross
      ring
    unfold offset direction_relative_to_normal
    rw [hpos, hortho, hunit, hy]
    norm_num

/-- C6 witness: a concrete viewport looking along z with top projected to
the x-axis, a visible star and the center star. -/
theorem C6_projection_formula_witness :
    (dot (⟨0, 0, 1⟩ : Vec3) (⟨1, 0, 0⟩ : Vec3) = 0
      ∧ dot (⟨0, 0, 1⟩ : Vec3) (⟨0, 0, 1⟩ : Vec3) = 1
      ∧ 0 < (direction_relative_to_normal
          (sample_appearance "w" (some 1)).pos ⟨0, 0, 1⟩ ⟨1, 0, 0⟩).z)
    ∧ offset (sample_appearance "w" (some 1))
        ⟨⟨0, 0, 1⟩, ⟨1, 0, 0⟩, 2⟩ ⟨1, 0, 0⟩ = some
        ((direction_relative_to_normal
            (sample_appearance "w" (some 1)).pos ⟨0, 0, 1⟩ ⟨1, 0, 0⟩).y * 2,
          -(direction_relative_to_normal
            (sample_appearance "w" (some 1)).pos ⟨0, 0, 1⟩ ⟨1, 0, 0⟩).x * 2)
    ∧ offset (sample_appearance "w" (some 1))
        ⟨⟨0, 0, 1⟩, ⟨1, 0, 0⟩, 2⟩ ⟨1, 0, 0⟩ = some (0, 0) :=
  ⟨⟨by norm_num [dot], by norm_num [dot],
     by norm_num [direction_relative_to_normal, dot, sample_appearance]⟩,
   (C6_projection_formula ⟨⟨0, 0, 1⟩, ⟨1, 0, 0⟩, 2⟩ ⟨1, 0, 0⟩
      (sample_appearance "w" (some 1)) (by norm_num [dot])
      (by norm_num [dot])).1
     (by norm_num [direction_relative_to_normal, dot, sample_appearance]),
   (C6_projection_formula ⟨⟨0, 0, 1⟩, ⟨1, 0, 0⟩, 2⟩ ⟨1, 0, 0⟩
      (sample_appearance "w" (some 1)) (by norm_num [dot])
      (by norm_num [dot])).2.2
     (by norm_num [sample_appearance])⟩

/-- C7: with ratio the illuminance over 8e-8 lux, a dim body (ratio < 1)
renders at exactly MIN_RADIUS with alpha ratio^0.75 in [0, 1); a bright
body (ratio >= 1) renders with alpha 1 and radius ratio^0.23 * MIN_RADIUS
capped at MAX_RADIUS; in all cases the radius lies in
[MIN_RADIUS, MAX_RADIUS] and the alpha in [0, 1].  The illuminance of a
star appearance is non-negative, which is the hypothesis. -/
theorem C7_brightness_radius_alpha (illuminance : ℝ)
    (h : 0 ≤ illuminance) :
    (brightness_ratio illuminance < 1 →
      (color_and_radius illuminance).2 = min_radius
      ∧ (color_and_radius illuminance).1
          = Real.rpow (brightness_ratio illuminance) alpha_exponent
      ∧ 0 ≤ (color_and_radius illuminance).1
      ∧ (color_and_radius illuminance).1 < 1)
    ∧ (1 ≤ brightness_ratio illuminance →
      (color_and_radius illuminance).1 = 1
      ∧ (color_and_radius illuminance).2
          = (if Real.rpow (brightness_ratio illuminance) radius_exponent
                * min_radius > max_radius
             then max_radius
             else Real.rpow (brightness_ratio illuminance) radius_exponent
                * min_radius))
    ∧ (min_radius ≤ (color_and_radius illuminance).2
      ∧ (color_and_radius illuminance).2 ≤ max_radius
      ∧ 0 ≤ (color_and_radius illuminance).1
      ∧ (color_and_radius illuminance).1 ≤ 1) := by
  have hratio0 : 0 ≤ brightness_ratio illuminance := by
    unfold brightness_ratio illuminance_at_min_radius
    positivity
  by_cases hlt : brightness_ratio illuminance < 1
  · have har : color_and_radius illuminance
        = (Real.rpow (brightness_ratio illuminance) alpha_exponent,
           min_radius) := by
      unfold color_and_radius
      rw [if_pos hlt]
    have halpha0 : 0 ≤ Real.rpow (brightness_ratio illuminance)
        alpha_exponent := Real.rpow_nonneg hratio0 _
    have halpha1 : Real.rpow (brightness_ratio illuminance)
        alpha_exponent < 1 := by
      apply Real.rpow_lt_one hratio0 hlt
      unfold alpha_exponent
      norm_num
    refine ⟨fun _ => ⟨by rw [har], by rw [har], ?_, ?_⟩,
      fun hge => absurd hge (not_le.mpr hlt), ?_, ?_, ?_, ?_⟩
    · rw [har]
      exact halpha0
    · rw [har]
      exact halpha1
    · rw [har]
    · rw [har]
      unfold min_radius max_radius
      norm_num
    · rw [har]
      exact halpha0
    · rw [har]
      exact le_of_lt halpha1
  · have hge : 1 ≤ brightness_ratio illuminance := not_lt.mp hlt
    have hr1 : 1 ≤ Real.rpow (brightness_ratio illuminance)
        radius_exponent := by
      apply Real.one_le_rpow hge
      unfold radius_exponent
      norm_num
    have har : color_and_radius illuminance
        = (1, if Real.rpow (brightness_ratio illuminance) radius_exponent
              * min_radius > max_radius
            then max_radius
            else Real.rpow (brightness_ratio illuminance) radius_exponent
              * min_radius) := by
      unfold color_and_radius
      rw [if_neg hlt]
    have hmin_le : min_radius ≤ Real.rpow
        (brightness_ratio illuminance) radius_exponent * min_radius := by
      unfold min_radius
      nlinarith
    refine ⟨fun hlt2 => absurd hlt2 (not_lt.mpr hge),
      fun _ => ⟨by rw [har], by rw [har]⟩, ?_, ?_, ?_, ?_⟩
    · rw [har]
      dsimp only
      split
      · unfold min_radius max_radius
        norm_num
      · exact hmin_le
    · rw [har]
      dsimp only
      split
      · exact le_refl _
      · rename_i hcap
        exact le_of_not_lt hcap
    · rw [har]
      norm_num
    · rw [har]

/-- C7 witness: illuminance exactly at the 8e-8 lux threshold. -/
theorem C7_brightness_radius_alpha_witness :
    (0 : ℝ) ≤ 8 / 100000000
    ∧ ((brightness_ratio (8 / 100000000) < 1 →
        (color_and_radius (8 / 100000000)).2 = min_radius
        ∧ (color_and_radius (8 / 100000000)).1
            = Real.rpow (brightness_ratio (8 / 100000000)) alpha_exponent
        ∧ 0 ≤ (color_and_radius (8 / 100000000)).1
        ∧ (color_and_radius (8 / 100000000)).1 < 1)
      ∧ (1 ≤ brightness_ratio (8 / 100000000) →
        (color_and_radius (8 / 100000000)).1 = 1
        ∧ (color_and_radius (8 / 100000000)).2
            = (if Real.rpow (brightness_ratio (8 / 100000000))
                  radius_exponent * min_radius > max_radius
               then max_radius
               else Real.rpow (brightness_ratio (8 / 100000000))
                  radius_exponent * min_radius))
      ∧ (min_radius ≤ (color_and_radius (8 / 100000000)).2
        ∧ (color_and_radius (8 / 100000000)).2 ≤ max_radius
        ∧ 0 ≤ (color_and_radius (8 / 100000000)).1
        ∧ (color_and_radius (8 / 100000000)).1 ≤ 1)) :=
  ⟨by norm_num,
   C7_brightness_radius_alpha (8 / 100000000) (by norm_num)⟩

/-- C1 counterexample: adding a planet with semi-major axis 2 to a vector
holding axis 3 followed by a NaN axis moves the new planet ahead of the
NaN planet, although that pair compares Equal (incomparable) and the NaN
planet came first: the stability the claim asserts for incomparable pairs
fails, so the claim as stated is false at this input.  (With a NaN key
the comparator is total but not transitive, and the merge of the sorted
halves `[far, nan]` and `[near]` emits `near` first because
`far ≤ near` fails.) -/
theorem C1_counterexample :
    ¬ keeps_equal_order (cex_planet_system.planets ++ [cex_planet_near])
      (cex_planet_system.add_planet_data cex_planet_near).planets := by
  intro hstable
  have hbne1 : (Ordering.eq != Ordering.gt) = true := rfl
  have hbne2 : (Ordering.lt != Ordering.gt) = true := rfl
  have hbne3 : (Ordering.gt != Ordering.gt) = false := rfl
  have hresult : (cex_planet_system.add_planet_data
        cex_planet_near).planets
      = [cex_planet_near, cex_planet_far, cex_planet_nan] := by
    show List.mergeSort
      [cex_planet_far, cex_planet_nan, cex_planet_near] planet_le = _
    norm_num [List.mergeSort, List.merge, planet_le, cmpD, pcmp, cmpQ,
      cex_planet_far, cex_planet_nan, cex_planet_near,
      PlanetData.get_semi_major_axis, hbne1, hbne2, hbne3]
  have heq : cmpD ((cex_planet_system.planets
        ++ [cex_planet_near]).get ⟨1, by decide⟩).get_semi_major_axis
      ((cex_planet_system.planets
        ++ [cex_planet_near]).get ⟨2, by decide⟩).get_semi_major_axis
      = .eq := rfl
  have hsub := hstable 1 2 (by norm_num) (by decide) heq
  rw [hresult] at hsub
  have hnames := hsub.map PlanetData.name
  revert hnames
  decide

end Elenath
